import Mathlib

/-!
# Hantek 6022BE acquisition firmware (`hantek_6022be.c`)

A shallow embedding of the device-side control code: the voltage range
setter, the channel-count setter, the sample-rate (GPIF waveform)
programmer, the interface selector, the sampling start/stop sequences and
the vendor command dispatcher.

Machine bytes are natural numbers; every store into a byte register is
reduced modulo 256.  The device state carries, next to the register file and
the firmware variables, the list of register writes made so far, oldest
first, so that the order of hardware accesses can be stated.
-/

namespace Hantek

/-! ## Data model -/

/-- Hardware locations the firmware stores to.  `PC0` and `PC1` are the two
LED pins, addressed by name in the source; `EXTAUTODAT2` is the data window of
auto-pointer 2. -/
inductive Reg where
  | IOC | PC0 | PC1
  | EP2FIFOCFG | EP6FIFOCFG
  | GPIFABORT | FIFORESET | INPKTEND
  | GPIFTCB1 | GPIFTCB0 | GPIFTRIG
  | IFCONFIG | AUTOPTRSETUP | AUTOPTRH2 | AUTOPTRL2 | EXTAUTODAT2
  | EP2CFG | EP6CFG | EP4CFG | EP8CFG
  | EP2GPIFFLGSEL | EP6GPIFFLGSEL
  | EP2AUTOINLENL | EP2AUTOINLENH | EP6AUTOINLENL | EP6AUTOINLENH
  | EP2ISOINPKTS
  | EP0BCH | EP0BCL
  | GPIFIDLECTL | GPIFCTLCFG | GPIFWFSELECT | GPIFREADYSTAT
  deriving DecidableEq, Repr

/-- Device state: the register file, the file-scope variables of the
firmware, and the trace of register writes (oldest first). -/
structure Dev where
  regs : Reg → Nat
  altiface : Nat
  ledcounter : Nat
  dosud : Bool
  dosuspend : Bool
  log : List (Reg × Nat)

/-- What the hardware and the USB core present to the firmware during one
call.  The two bit masks and the two descriptors are declared outside this
source file and are taken as parameters.  `EP0CS k` and `GPIFTRIG k` are the
values those status registers show at the k-th poll of a busy-wait. -/
structure Env where
  bmHSM : Nat
  bmEPBUSY : Nat
  highspd_dscr : Nat → Nat
  fullspd_dscr : Nat → Nat
  USBCS : Nat
  EP0BUF0 : Nat
  EP0CS : Nat → Nat
  GPIFTRIG : Nat → Nat

/-- Result of running a routine that may wait on the hardware: it returns a
value in a final state, or it is still inside a loop when the fuel is used up
(or has left the bounds of a table); the state reached so far is kept. -/
inductive Run (α : Type) where
  | ret (a : α) (s : Dev)
  | stuck (s : Dev)

/-- State carried by a run, returned or not. -/
def Run.state {α : Type} : Run α → Dev
  | .ret _ s => s
  | .stuck s => s

/-- Store of a byte into a hardware register: the register file is updated
and the write is appended to the trace. -/
def write (r : Reg) (v : Nat) (s : Dev) : Dev :=
  { s with regs := Function.update s.regs r (v % 256),
           log := s.log ++ [(r, v % 256)] }

/-- Assignment to the variable `ledcounter` (a 16-bit word). -/
def set_ledcounter (v : Nat) (s : Dev) : Dev :=
  { s with ledcounter := v % 65536 }

/-- Assignment to the variable `altiface` (a byte). -/
def set_altiface (v : Nat) (s : Dev) : Dev :=
  { s with altiface := v % 256 }

/-- Consecutive stores of a list of bytes into one register. -/
def writeAll (r : Reg) : List Nat → Dev → Dev
  | [], s => s
  | v :: vs, s => writeAll r vs (write r v s)

/-- Bitwise complement of a byte operand after integer promotion (16-bit
`int`). -/
def cnot (m : Nat) : Nat := 0xFFFF - m

/-- Busy-wait `while (cond) ;` on a status register.  `reads k` is the value
seen at poll `k`; the loop goes on while `again` holds of the value read.  The
result is the number of polls made, or `none` when the fuel is used up. -/
def spin (again : Nat → Bool) (reads : Nat → Nat) : Nat → Nat → Option Nat
  | 0, _ => none
  | fuel + 1, k =>
    if again (reads k % 256) then spin again reads fuel (k + 1) else some (k + 1)

/-! ## Voltage range and channel count -/

/-- `set_voltage(channel, val)`. -/
def set_voltage (channel val : Nat) (s : Dev) : Bool × Dev :=
  let go (bits : Nat) : Bool × Dev :=
    let mask := if channel ≠ 0 then 0xe0 else 0x1c
    (true, write .IOC ((s.regs .IOC &&& cnot mask) ||| (bits &&& mask)) s)
  if val = 1 then go ((0x24 * 2) % 256)
  else if val = 2 then go ((0x24 * 1) % 256)
  else if val = 5 then go ((0x24 * 0) % 256)
  else if val = 10 then go ((0x24 * 3) % 256)
  else (false, s)

/-- `set_numchannels(numchannels)`. -/
def set_numchannels (numchannels : Nat) (s : Dev) : Bool × Dev :=
  if numchannels = 1 ∨ numchannels = 2 then
    let fifocfg := (7 + numchannels) % 256
    let s := write .EP2FIFOCFG fifocfg s
    let s := write .EP6FIFOCFG fifocfg s
    (true, s)
  else (false, s)

/-! ## Sampling start and stop -/

/-- `clear_fifo()`. -/
def clear_fifo (s : Dev) : Dev :=
  let s := write .GPIFABORT 0xff s
  let s := write .FIFORESET 0x80 s
  let s := write .FIFORESET 0x82 s
  let s := write .FIFORESET 0x86 s
  write .FIFORESET 0 s

/-- `stop_sampling()`. -/
def stop_sampling (s : Dev) : Dev :=
  let s := write .GPIFABORT 0xff s
  write .INPKTEND (if s.altiface = 0 then 6 else 2) s

/-- `start_sampling()`.  The counted delay loop `for (i = 0; i < 1000; i++);`
touches no device state; the readiness poll reads `GPIFTRIG` until bit 0x80
shows. -/
def start_sampling (env : Env) (fuel : Nat) (s : Dev) : Run Unit :=
  let s := clear_fifo s
  match spin (fun v => v &&& 0x80 = 0) env.GPIFTRIG fuel 0 with
  | none => .stuck s
  | some _ =>
    let s := write .GPIFTCB1 0x28 s
    let s := write .GPIFTCB0 0 s
    let s := write .GPIFTRIG (if s.altiface = 0 then 6 else 4) s
    let s := set_ledcounter 0 s
    let s := write .PC0 1 s
    let s := write .PC1 0 s
    .ret () s

/-! ## Interface selection -/

/-- `select_interface(alt)`.  `pPacketSize` points `9 + 16 * alt + 9 + 4`
bytes into the descriptor chosen by the high-speed bit of `USBCS`. -/
def select_interface (env : Env) (alt : Nat) (s : Dev) : Dev :=
  let dscr := if env.USBCS % 256 &&& env.bmHSM ≠ 0 then env.highspd_dscr else env.fullspd_dscr
  let off := 9 + (16 * alt) + 9 + 4
  let pPacketSize (k : Nat) : Nat := dscr (off + k) % 256
  let s := set_altiface alt s
  if alt = 0 then
    let s := write .EP2CFG 0x00 s
    let s := write .EP6CFG 0xe0 s
    let s := write .EP6GPIFFLGSEL 1 s
    let s := write .EP6AUTOINLENL (pPacketSize 0) s
    write .EP6AUTOINLENH (pPacketSize 1) s
  else
    let s := write .EP2CFG 0xd8 s
    let s := write .EP6CFG 0x00 s
    let s := write .EP2GPIFFLGSEL 1 s
    let s := write .EP2AUTOINLENL (pPacketSize 0) s
    let s := write .EP2AUTOINLENH (pPacketSize 1 &&& 0x7) s
    write .EP2ISOINPKTS ((pPacketSize 1 >>> 3) + 1) s

/-! ## Sample rate -/

/-- One row of the `samplerates` table. -/
structure samplerate_info where
  rate : Nat
  wait0 : Nat
  wait1 : Nat
  opc0 : Nat
  opc1 : Nat
  out0 : Nat
  ifcfg : Nat
  deriving DecidableEq, Repr

/-- The `samplerates[]` table. -/
def samplerates : List samplerate_info :=
  [ ⟨48, 0x80,   0, 3, 0, 0x00, 0xea⟩,
    ⟨30, 0x80,   0, 3, 0, 0x00, 0xaa⟩,
    ⟨24,    1,   0, 2, 1, 0x40, 0xca⟩,
    ⟨16,    1,   1, 2, 0, 0x40, 0xca⟩,
    ⟨12,    2,   1, 2, 0, 0x40, 0xca⟩,
    ⟨ 8,    3,   2, 2, 0, 0x40, 0xca⟩,
    ⟨ 4,    6,   5, 2, 0, 0x40, 0xca⟩,
    ⟨ 2,   12,  11, 2, 0, 0x40, 0xca⟩,
    ⟨ 1,   24,  23, 2, 0, 0x40, 0xca⟩,
    ⟨50,   48,  47, 2, 0, 0x40, 0xca⟩,
    ⟨20,  120, 119, 2, 0, 0x40, 0xca⟩,
    ⟨10,  240, 239, 2, 0, 0x40, 0xca⟩ ]

/-- Outcome of the table search: the index of the matching row, or no row;
both with the number of key comparisons made. -/
inductive Lookup where
  | found (i : Nat) (cmps : Nat)
  | absent (cmps : Nat)
  deriving DecidableEq, Repr

/-- The search loop of `set_samplerate`, started at byte index `i` after
`n` comparisons:
`while (samplerates[i].rate != rate) { i++; if (i == 12) return FALSE; }`.
`none` when the fuel is used up or the index is outside the table. -/
def find_rate (rate : Nat) : Nat → Nat → Nat → Option Lookup
  | 0, _, _ => none
  | fuel + 1, i, n =>
    match samplerates[i]? with
    | none => none
    | some row =>
      if row.rate ≠ rate then
        let i := (i + 1) % 256
        if i = samplerates.length then some (.absent (n + 1))
        else find_rate rate fuel i (n + 1)
      else some (.found i (n + 1))

/-- The `for (i = 0; i < 96; i++) EXTAUTODAT2 = 0;` loop, with `n` rounds
left. -/
def zero_fill : Nat → Dev → Dev
  | 0, s => s
  | n + 1, s => zero_fill n (write .EXTAUTODAT2 0 s)

/-- `set_samplerate(rate)`.  The index is a byte, so 256 rounds of the search
loop visit every value it can take. -/
def set_samplerate (rate : Nat) (s : Dev) : Run Bool :=
  match find_rate rate 256 0 0 with
  | none => .stuck s
  | some (.absent _) => .ret false s
  | some (.found i _) =>
    match samplerates[i]? with
    | none => .stuck s
    | some row =>
      let s := write .IFCONFIG row.ifcfg s
      let s := write .AUTOPTRSETUP 7 s
      let s := write .AUTOPTRH2 0xE4 s
      let s := write .AUTOPTRL2 0x00 s
      let s := writeAll .EXTAUTODAT2 [row.wait0, row.wait1, 1, 0, 0, 0, 0, 0] s
      let s := writeAll .EXTAUTODAT2 [row.opc0, row.opc1, 1, 0, 0, 0, 0, 0] s
      let s := writeAll .EXTAUTODAT2 [row.out0, 0x44, 0x44, 0x00, 0x00, 0x00, 0x00, 0x00] s
      let s := writeAll .EXTAUTODAT2 [0, 0, 0, 0, 0, 0, 0, 0] s
      let s := zero_fill 96 s
      .ret true s

/-! ## USB request hooks -/

/-- `handle_get_interface(ifc, alt_ifc)`: the value stored through `alt_ifc`
is returned next to the result. -/
def handle_get_interface (_ifc : Nat) (s : Dev) : Bool × Nat × Dev :=
  (true, s.altiface, s)

/-- `handle_set_interface(ifc, alt_ifc)`. -/
def handle_set_interface (env : Env) (ifc alt_ifc : Nat) (s : Dev) : Bool × Dev :=
  if ifc = 0 then (true, select_interface env alt_ifc s) else (true, s)

/-- The `switch (cmd)` statement of `handle_vendorcommand`, with the payload
byte `EP0BUF[0]` read from the endpoint buffer. -/
def vendor_switch (env : Env) (fuel : Nat) (cmd : Nat) (s : Dev) : Run Bool :=
  if cmd = 0xe0 ∨ cmd = 0xe1 then
    .ret true (set_voltage ((cmd - 0xe0) % 256) (env.EP0BUF0 % 256) s).2
  else if cmd = 0xe2 then
    match set_samplerate (env.EP0BUF0 % 256) s with
    | .ret _ s => .ret true s
    | .stuck s => .stuck s
  else if cmd = 0xe3 then
    if env.EP0BUF0 % 256 = 1 then
      match start_sampling env fuel s with
      | .ret _ s => .ret true s
      | .stuck s => .stuck s
    else .ret true s
  else if cmd = 0xe4 then
    .ret true (set_numchannels (env.EP0BUF0 % 256) s).2
  else .ret false s

/-- `handle_vendorcommand(cmd)`: stop sampling, set the red LED, clear the
EP0 byte count and wait for the endpoint on a valid command, then the
switch. -/
def handle_vendorcommand (env : Env) (fuel : Nat) (cmd : Nat) (s : Dev) : Run Bool :=
  let s := stop_sampling s
  let s := write .PC0 0 s
  let s := write .PC1 1 s
  let s := set_ledcounter 1000 s
  if cmd ≥ 0xe0 ∧ cmd ≤ 0xe4 then
    let s := write .EP0BCH 0 s
    let s := write .EP0BCL 0 s
    match spin (fun v => v &&& env.bmEPBUSY ≠ 0) env.EP0CS fuel 0 with
    | none => .stuck s
    | some _ => vendor_switch env fuel cmd s
  else vendor_switch env fuel cmd s

/-- `init()`. -/
def init (env : Env) (s : Dev) : Run Unit :=
  let s := write .EP4CFG 0 s
  let s := write .EP8CFG 0 s
  let s := write .GPIFIDLECTL 0x00 s
  let s := write .GPIFCTLCFG 0x80 s
  let s := write .GPIFWFSELECT 0x00 s
  let s := write .GPIFREADYSTAT 0x00 s
  let s := stop_sampling s
  let s := (set_voltage 0 1 s).2
  let s := (set_voltage 1 1 s).2
  match set_samplerate 1 s with
  | .stuck s => .stuck s
  | .ret _ s =>
    let s := (set_numchannels 2 s).2
    .ret () (select_interface env 0 s)

/-! ## Tables of the specification, derived values and sample states -/

/-- Selector table of the specification: range code to 2-bit selector,
`1 -> 10b, 2 -> 01b, 5 -> 00b, 10 -> 11b`. -/
def spec_selector (val : Nat) : Nat :=
  if val = 1 then 0b10 else if val = 2 then 0b01 else if val = 5 then 0b00
  else if val = 10 then 0b11 else 0

/-- Value stored into `IOC` by the read-modify-write of `set_voltage` when the
register held `x` and the switch chose `bits`. -/
def ioc_rmw (channel bits x : Nat) : Nat :=
  ((x &&& cnot (if channel ≠ 0 then 0xe0 else 0x1c)) |||
    (bits &&& (if channel ≠ 0 then 0xe0 else 0x1c))) % 256

/-- A device with every register cleared, alt setting 0 and an empty trace. -/
def dev0 : Dev :=
  { regs := fun _ => 0, altiface := 0, ledcounter := 0,
    dosud := false, dosuspend := false, log := [] }

/-- A device whose port C holds `0xA7` (both channel fields and the two LED
bits occupied), running the isochronous alt setting. -/
def devA : Dev :=
  { regs := fun r => if r = .IOC then 0xA7 else 0, altiface := 1, ledcounter := 3,
    dosud := false, dosuspend := false, log := [] }

/-! ## Auxiliary definitions used in the statements -/

/-- Linear scan of a table suffix. -/
def scan (rate : Nat) : List samplerate_info → Nat → Nat → Lookup
  | [], _, n => .absent n
  | row :: rest, i, n =>
    if row.rate = rate then .found i (n + 1) else scan rate rest (i + 1) (n + 1)

/-- The answer of the search written out row by row. -/
def rate_index (rate : Nat) : Lookup :=
  if rate = 48 then .found 0 1 else if rate = 30 then .found 1 2
  else if rate = 24 then .found 2 3 else if rate = 16 then .found 3 4
  else if rate = 12 then .found 4 5 else if rate = 8 then .found 5 6
  else if rate = 4 then .found 6 7 else if rate = 2 then .found 7 8
  else if rate = 1 then .found 8 9 else if rate = 50 then .found 9 10
  else if rate = 20 then .found 10 11 else if rate = 10 then .found 11 12
  else .absent 12

/-- State left by the store sequence of `set_samplerate` for a table row. -/
def load_program (row : samplerate_info) (s : Dev) : Dev :=
  let s := write .IFCONFIG row.ifcfg s
  let s := write .AUTOPTRSETUP 7 s
  let s := write .AUTOPTRH2 0xE4 s
  let s := write .AUTOPTRL2 0x00 s
  let s := writeAll .EXTAUTODAT2 [row.wait0, row.wait1, 1, 0, 0, 0, 0, 0] s
  let s := writeAll .EXTAUTODAT2 [row.opc0, row.opc1, 1, 0, 0, 0, 0, 0] s
  let s := writeAll .EXTAUTODAT2 [row.out0, 0x44, 0x44, 0x00, 0x00, 0x00, 0x00, 0x00] s
  let s := writeAll .EXTAUTODAT2 [0, 0, 0, 0, 0, 0, 0, 0] s
  zero_fill 96 s

/-- Values stored into register `r`, oldest first, in a trace of writes. -/
def stores (r : Reg) (log : List (Reg × Nat)) : List Nat :=
  (log.filter (fun w => decide (w.1 = r))).map (fun w => w.2)

/-- Byte sequence the specification gives for a profile row: the wait record,
the branch/opcode record and the output-enable record with zero trailing
fields, then 96 zero bytes. -/
def spec_program (row : samplerate_info) : List Nat :=
  [row.wait0, row.wait1, 0, 0, 0, 0, 0, 0] ++
  [row.opc0, row.opc1, 0, 0, 0, 0, 0, 0] ++
  [row.out0, 0x44, 0x44, 0, 0, 0, 0, 0] ++
  List.replicate 96 0

/-- State in which `start_sampling` returns once the sequencer is ready. -/
def armed (s : Dev) : Dev :=
  let s := clear_fifo s
  let s := write .GPIFTCB1 0x28 s
  let s := write .GPIFTCB0 0 s
  let s := write .GPIFTRIG (if s.altiface = 0 then 6 else 4) s
  let s := set_ledcounter 0 s
  let s := write .PC0 1 s
  write .PC1 0 s

/-- Sample environment: high-speed link, endpoint 0 busy for the first three
polls, sequencer ready from the second poll on, payload byte 1. -/
def env1 : Env :=
  { bmHSM := 0x80, bmEPBUSY := 0x02,
    highspd_dscr := fun k =>
      if k = 22 then 0x00 else if k = 23 then 0x02
      else if k = 38 then 0x00 else if k = 39 then 0x14 else 0,
    fullspd_dscr := fun k =>
      if k = 22 then 0x40 else if k = 23 then 0x00
      else if k = 38 then 0xff else if k = 39 then 0x03 else 0,
    USBCS := 0x80, EP0BUF0 := 1,
    EP0CS := fun k => if k < 3 then 0x02 else 0x00,
    GPIFTRIG := fun k => if k < 1 then 0x00 else 0x80 }

/-- Register writes the specification lists for `start_sampling`, the trigger
write last. -/
def spec_start_writes (alt : Nat) : List (Reg × Nat) :=
  [(.GPIFABORT, 0xFF), (.FIFORESET, 0x80), (.FIFORESET, 0x82), (.FIFORESET, 0x86),
   (.FIFORESET, 0x00), (.GPIFTCB1, 0x28), (.GPIFTCB0, 0x00),
   (.GPIFTRIG, if alt = 0 then 6 else 4)]

/-- Byte `i` of the 128-byte waveform block that `set_samplerate` stores for a
table row. -/
def program_byte (row : samplerate_info) (i : Nat) : Nat :=
  if i = 0 then row.wait0 else if i = 1 then row.wait1 else if i = 2 then 1
  else if i = 8 then row.opc0 else if i = 9 then row.opc1 else if i = 10 then 1
  else if i = 16 then row.out0 else if i = 17 then 0x44 else if i = 18 then 0x44
  else 0

/-- State of `handle_vendorcommand` after `stop_sampling` and the red LED. -/
def led_red (s : Dev) : Dev :=
  set_ledcounter 1000 (write .PC1 1 (write .PC0 0 (stop_sampling s)))

/-- State of `handle_vendorcommand` on a valid opcode when it starts to wait
for endpoint 0. -/
def prologue (s : Dev) : Dev :=
  write .EP0BCL 0 (write .EP0BCH 0 (led_red s))

/-- Hardware on which endpoint 0 reads busy at every poll; the sequencer is
always ready and the payload byte is 1. -/
def envBusy : Env :=
  { bmHSM := 0x80, bmEPBUSY := 0x02,
    highspd_dscr := fun _ => 0, fullspd_dscr := fun _ => 0,
    USBCS := 0x80, EP0BUF0 := 1,
    EP0CS := fun _ => 0x02,
    GPIFTRIG := fun _ => 0x80 }

/-- A list of writes that touches none of the registers that reset the FIFOs,
load the transaction count or trigger the sequencer. -/
def Quiet (ws : List (Reg × Nat)) : Prop :=
  ∀ w ∈ ws, w.1 ≠ .FIFORESET ∧ w.1 ≠ .GPIFTCB1 ∧ w.1 ≠ .GPIFTCB0 ∧ w.1 ≠ .GPIFTRIG

/-- State in which `init` hands over to `set_samplerate`: the GPIF idle
configuration, `stop_sampling` and the two default voltage ranges. -/
def init_head (s : Dev) : Dev :=
  let s := write .EP4CFG 0 s
  let s := write .EP8CFG 0 s
  let s := write .GPIFIDLECTL 0x00 s
  let s := write .GPIFCTLCFG 0x80 s
  let s := write .GPIFWFSELECT 0x00 s
  let s := write .GPIFREADYSTAT 0x00 s
  let s := stop_sampling s
  let s := (set_voltage 0 1 s).2
  (set_voltage 1 1 s).2

/-- The sample environment `env1` with payload byte `p`. -/
def envP (p : Nat) : Env :=
  { env1 with EP0BUF0 := p }

/-! ## Basic facts about register stores -/

@[simp] theorem write_regs (r : Reg) (v : Nat) (s : Dev) :
    (write r v s).regs = Function.update s.regs r (v % 256) := rfl

@[simp] theorem write_log (r : Reg) (v : Nat) (s : Dev) :
    (write r v s).log = s.log ++ [(r, v % 256)] := rfl

@[simp] theorem write_altiface (r : Reg) (v : Nat) (s : Dev) :
    (write r v s).altiface = s.altiface := rfl

@[simp] theorem write_ledcounter (r : Reg) (v : Nat) (s : Dev) :
    (write r v s).ledcounter = s.ledcounter := rfl

@[simp] theorem write_dosud (r : Reg) (v : Nat) (s : Dev) :
    (write r v s).dosud = s.dosud := rfl

@[simp] theorem write_dosuspend (r : Reg) (v : Nat) (s : Dev) :
    (write r v s).dosuspend = s.dosuspend := rfl

@[simp] theorem set_ledcounter_regs (v : Nat) (s : Dev) :
    (set_ledcounter v s).regs = s.regs := rfl

@[simp] theorem set_ledcounter_log (v : Nat) (s : Dev) :
    (set_ledcounter v s).log = s.log := rfl

@[simp] theorem set_ledcounter_altiface (v : Nat) (s : Dev) :
    (set_ledcounter v s).altiface = s.altiface := rfl

@[simp] theorem set_altiface_regs (v : Nat) (s : Dev) :
    (set_altiface v s).regs = s.regs := rfl

@[simp] theorem set_altiface_log (v : Nat) (s : Dev) :
    (set_altiface v s).log = s.log := rfl

@[simp] theorem set_altiface_altiface (v : Nat) (s : Dev) :
    (set_altiface v s).altiface = v % 256 := rfl

/-! ## `set_voltage` -/

theorem set_voltage_eq_of_valid (channel val : Nat) (s : Dev)
    (hv : val = 1 ∨ val = 2 ∨ val = 5 ∨ val = 10) :
    set_voltage channel val s =
      (true, write .IOC (ioc_rmw channel (0x24 * spec_selector val) (s.regs .IOC)) s) := by
  rcases hv with h | h | h | h <;> subst h <;>
    simp [set_voltage, ioc_rmw, spec_selector, write]

theorem spec_selector_lt (val : Nat) : spec_selector val < 4 := by
  unfold spec_selector
  split_ifs <;> decide

set_option maxRecDepth 100000 in
theorem ioc_rmw_lt : ∀ x < 256, ∀ c < 2, ∀ sel < 4, ioc_rmw c (0x24 * sel) x < 256 := by
  decide

set_option maxRecDepth 100000 in
theorem ioc_rmw_field : ∀ x < 256, ∀ c < 2, ∀ sel < 4,
    (ioc_rmw c (0x24 * sel) x &&& (if c ≠ 0 then 0xe0 else 0x1c)) >>>
        (if c ≠ 0 then 5 else 2) = sel := by
  decide

set_option maxRecDepth 100000 in
theorem ioc_rmw_frame : ∀ x < 256, ∀ c < 2, ∀ sel < 4, ∀ i < 8,
    (if c ≠ 0 then 0xe0 else 0x1c).testBit i = false →
      (ioc_rmw c (0x24 * sel) x).testBit i = x.testBit i := by
  decide

set_option maxRecDepth 100000 in
theorem ioc_rmw_other : ∀ x < 256, ∀ c < 2, ∀ sel < 4,
    ioc_rmw c (0x24 * sel) x &&& (if c ≠ 0 then 0x1c else 0xe0) =
        x &&& (if c ≠ 0 then 0x1c else 0xe0) := by
  decide

theorem testBit_high (x i : Nat) (hx : x < 256) (hi : 8 ≤ i) : x.testBit i = false := by
  apply Nat.testBit_lt_two_pow
  calc x < 2 ^ 8 := hx
    _ ≤ 2 ^ i := Nat.pow_le_pow_right (by decide) hi

/-- C1: for channel 0 or 1, a range code in {1, 2, 5, 10} and any byte in
`IOC`, `set_voltage` returns TRUE; the 3-bit field selected by the channel's
mask then holds the selector of the table 1 -> 10b, 2 -> 01b, 5 -> 00b,
10 -> 11b with its top bit zero, and every `IOC` bit outside that field, the
other channel's field in particular, keeps its value. -/
theorem set_voltage_valid (channel val : Nat) (s : Dev)
    (hc : channel = 0 ∨ channel = 1)
    (hv : val = 1 ∨ val = 2 ∨ val = 5 ∨ val = 10)
    (hI : s.regs .IOC < 256) :
    (set_voltage channel val s).1 = true ∧
    (((set_voltage channel val s).2.regs .IOC &&& (if channel ≠ 0 then 0xe0 else 0x1c)) >>>
        (if channel ≠ 0 then 5 else 2)) = spec_selector val ∧
    spec_selector val < 4 ∧
    (∀ i, (if channel ≠ 0 then 0xe0 else 0x1c).testBit i = false →
        ((set_voltage channel val s).2.regs .IOC).testBit i = (s.regs .IOC).testBit i) ∧
    (set_voltage channel val s).2.regs .IOC &&& (if channel ≠ 0 then 0x1c else 0xe0) =
        s.regs .IOC &&& (if channel ≠ 0 then 0x1c else 0xe0) := by
  have hc2 : channel < 2 := by omega
  have hsel := spec_selector_lt val
  rw [set_voltage_eq_of_valid channel val s hv]
  simp only [write_regs, Function.update_same]
  have hlt := ioc_rmw_lt _ hI _ hc2 _ hsel
  rw [Nat.mod_eq_of_lt hlt]
  refine ⟨trivial, ioc_rmw_field _ hI _ hc2 _ hsel, hsel, ?_, ioc_rmw_other _ hI _ hc2 _ hsel⟩
  intro i hm
  by_cases hi : i < 8
  · exact ioc_rmw_frame _ hI _ hc2 _ hsel i hi hm
  · rw [testBit_high _ i hlt (by omega), testBit_high _ i hI (by omega)]

/-- Instance of C1: channel 1, range code 10, `IOC = 0xA7`. -/
theorem set_voltage_valid_witness :
    (set_voltage 1 10 devA).1 = true ∧
    (((set_voltage 1 10 devA).2.regs .IOC &&& (if 1 ≠ 0 then 0xe0 else 0x1c)) >>>
        (if 1 ≠ 0 then 5 else 2)) = spec_selector 10 ∧
    spec_selector 10 < 4 ∧
    (∀ i, (if 1 ≠ 0 then 0xe0 else 0x1c).testBit i = false →
        ((set_voltage 1 10 devA).2.regs .IOC).testBit i = (devA.regs .IOC).testBit i) ∧
    (set_voltage 1 10 devA).2.regs .IOC &&& (if 1 ≠ 0 then 0x1c else 0xe0) =
        devA.regs .IOC &&& (if 1 ≠ 0 then 0x1c else 0xe0) :=
  set_voltage_valid 1 10 devA (Or.inr rfl) (Or.inr (Or.inr (Or.inr rfl))) (by decide)

/-- C2: at `set_voltage(0, 1)` with `IOC = 0` the code stores `0x08`: the
selector 010b lands in bits 2-4 and bits 5-7 stay zero, where the comment on
`set_voltage` puts channel 0 in bits 5-7; likewise `set_voltage(1, 1)` stores
`0x40`, the selector in bits 5-7 and nothing in bits 2-4. -/
theorem set_voltage_channel_bits :
    (set_voltage 0 1 dev0).2.regs .IOC = 0x08 ∧
    ((set_voltage 0 1 dev0).2.regs .IOC >>> 5) &&& 7 = 0 ∧
    ((set_voltage 0 1 dev0).2.regs .IOC >>> 2) &&& 7 = 0b010 ∧
    (set_voltage 1 1 dev0).2.regs .IOC = 0x40 ∧
    ((set_voltage 1 1 dev0).2.regs .IOC >>> 2) &&& 7 = 0 ∧
    ((set_voltage 1 1 dev0).2.regs .IOC >>> 5) &&& 7 = 0b010 := by
  decide

/-- C3: for any channel and any range code other than 1, 2, 5 and 10,
`set_voltage` returns FALSE and the device state, trace included, is the one
before the call. -/
theorem set_voltage_invalid (channel val : Nat) (s : Dev)
    (hv : val ≠ 1 ∧ val ≠ 2 ∧ val ≠ 5 ∧ val ≠ 10) :
    set_voltage channel val s = (false, s) := by
  obtain ⟨h1, h2, h5, h10⟩ := hv
  simp [set_voltage, h1, h2, h5, h10]

/-- Instance of C3: range code 3 on channel 1. -/
theorem set_voltage_invalid_witness :
    (3 ≠ 1 ∧ 3 ≠ 2 ∧ 3 ≠ 5 ∧ 3 ≠ 10) ∧ set_voltage 1 3 devA = (false, devA) :=
  ⟨by decide, set_voltage_invalid 1 3 devA (by decide)⟩

/-! ## `set_samplerate` and `set_numchannels` -/

theorem find_rate_step (rate fuel i n : Nat) (row : samplerate_info)
    (h : samplerates[i]? = some row) :
    find_rate rate (fuel + 1) i n =
      if row.rate ≠ rate then
        (if (i + 1) % 256 = samplerates.length then some (.absent (n + 1))
         else find_rate rate fuel ((i + 1) % 256) (n + 1))
      else some (.found i (n + 1)) := by
  rw [find_rate]
  rw [h]

theorem samplerates_length : samplerates.length = 12 := rfl

theorem find_rate_scan (rate : Nat) : ∀ (rest : List samplerate_info) (fuel i n : Nat),
    rest ≠ [] → samplerates.drop i = rest → rest.length ≤ fuel →
    find_rate rate fuel i n = some (scan rate rest i n) := by
  intro rest
  induction rest with
  | nil => intro _ _ _ h; exact absurd rfl h
  | cons row rest ih =>
    intro fuel i n _ hd hf
    obtain ⟨fuel, rfl⟩ : ∃ f, fuel = f + 1 := ⟨fuel - 1, by simp at hf; omega⟩
    have hlen : (samplerates.drop i).length = rest.length + 1 := by rw [hd]; rfl
    rw [List.length_drop, samplerates_length] at hlen
    have hrow : samplerates[i]? = some row := by
      have h0 : (samplerates.drop i)[0]? = some row := by rw [hd]; simp
      rw [List.getElem?_drop] at h0
      simpa using h0
    have hrest : samplerates.drop (i + 1) = rest := by
      rw [← List.drop_drop, hd]; rfl
    have hmod : (i + 1) % 256 = i + 1 := Nat.mod_eq_of_lt (by omega)
    rw [find_rate_step rate fuel i n row hrow, hmod, samplerates_length]
    by_cases hr : row.rate = rate
    · simp [scan, hr]
    · simp only [scan, hr, ne_eq, not_false_eq_true, if_true, if_false]
      by_cases he : i + 1 = 12
      · have : rest = [] := List.eq_nil_of_length_eq_zero (by omega)
        subst this
        simp [he, scan]
      · rw [if_neg he]
        apply ih
        · intro h0; subst h0; simp at hlen; omega
        · exact hrest
        · simp at hf; omega

theorem scan_table (rate : Nat) : scan rate samplerates 0 0 = rate_index rate := by
  by_cases h1 : rate = 48
  · subst h1; rfl
  by_cases h2 : rate = 30
  · subst h2; rfl
  by_cases h3 : rate = 24
  · subst h3; rfl
  by_cases h4 : rate = 16
  · subst h4; rfl
  by_cases h5 : rate = 12
  · subst h5; rfl
  by_cases h6 : rate = 8
  · subst h6; rfl
  by_cases h7 : rate = 4
  · subst h7; rfl
  by_cases h8 : rate = 2
  · subst h8; rfl
  by_cases h9 : rate = 1
  · subst h9; rfl
  by_cases h10 : rate = 50
  · subst h10; rfl
  by_cases h11 : rate = 20
  · subst h11; rfl
  by_cases h12 : rate = 10
  · subst h12; rfl
  have e : ∀ k : Nat, rate ≠ k → ¬ (k = rate) := fun k h h2 => h h2.symm
  simp only [rate_index, if_neg h1, if_neg h2, if_neg h3, if_neg h4, if_neg h5, if_neg h6,
    if_neg h7, if_neg h8, if_neg h9, if_neg h10, if_neg h11, if_neg h12]
  simp only [samplerates, scan, if_neg (e _ h1), if_neg (e _ h2), if_neg (e _ h3),
    if_neg (e _ h4), if_neg (e _ h5), if_neg (e _ h6), if_neg (e _ h7), if_neg (e _ h8),
    if_neg (e _ h9), if_neg (e _ h10), if_neg (e _ h11), if_neg (e _ h12)]

theorem find_rate_eq (rate fuel : Nat) (hf : 12 ≤ fuel) :
    find_rate rate fuel 0 0 = some (rate_index rate) := by
  rw [find_rate_scan rate samplerates fuel 0 0 (by decide) rfl hf, scan_table]

theorem writeAll_log (r : Reg) : ∀ (vs : List Nat) (s : Dev),
    (writeAll r vs s).log = s.log ++ vs.map (fun v => (r, v % 256)) := by
  intro vs
  induction vs with
  | nil => intro s; simp [writeAll]
  | cons v vs ih => intro s; simp [writeAll, ih]

theorem writeAll_regs (r : Reg) : ∀ (vs : List Nat) (s : Dev) (q : Reg), q ≠ r →
    (writeAll r vs s).regs q = s.regs q := by
  intro vs
  induction vs with
  | nil => intro s q _; rfl
  | cons v vs ih =>
    intro s q hq
    simp [writeAll, ih _ q hq, Function.update_noteq hq]

theorem writeAll_vars (r : Reg) : ∀ (vs : List Nat) (s : Dev),
    (writeAll r vs s).altiface = s.altiface ∧ (writeAll r vs s).ledcounter = s.ledcounter ∧
    (writeAll r vs s).dosud = s.dosud ∧ (writeAll r vs s).dosuspend = s.dosuspend := by
  intro vs
  induction vs with
  | nil => intro s; simp [writeAll]
  | cons v vs ih => intro s; simpa [writeAll] using ih (write r v s)

theorem zero_fill_log : ∀ (n : Nat) (s : Dev),
    (zero_fill n s).log = s.log ++ List.replicate n (Reg.EXTAUTODAT2, 0) := by
  intro n
  induction n with
  | zero => intro s; simp [zero_fill]
  | succ n ih => intro s; simp [zero_fill, ih, List.replicate_succ]

theorem zero_fill_regs : ∀ (n : Nat) (s : Dev) (q : Reg), q ≠ .EXTAUTODAT2 →
    (zero_fill n s).regs q = s.regs q := by
  intro n
  induction n with
  | zero => intro s q _; rfl
  | succ n ih =>
    intro s q hq
    simp [zero_fill, ih _ q hq, Function.update_noteq hq]

theorem zero_fill_vars : ∀ (n : Nat) (s : Dev),
    (zero_fill n s).altiface = s.altiface ∧ (zero_fill n s).ledcounter = s.ledcounter ∧
    (zero_fill n s).dosud = s.dosud ∧ (zero_fill n s).dosuspend = s.dosuspend := by
  intro n
  induction n with
  | zero => intro s; simp [zero_fill]
  | succ n ih => intro s; simpa [zero_fill] using ih (write .EXTAUTODAT2 0 s)

theorem set_samplerate_eq (rate : Nat) (s : Dev) :
    set_samplerate rate s =
      match rate_index rate with
      | .absent _ => .ret false s
      | .found i _ =>
        match samplerates[i]? with
        | none => .stuck s
        | some row => .ret true (load_program row s) := by
  unfold set_samplerate
  rw [find_rate_eq rate 256 (by decide)]
  cases rate_index rate <;> rfl

theorem rate_index_found (rate : Nat)
    (h : rate ∈ [1, 2, 4, 8, 10, 12, 16, 20, 24, 30, 48, 50]) :
    ∃ i c row, rate_index rate = .found i c ∧ samplerates[i]? = some row ∧
      row ∈ samplerates ∧ row.rate = rate := by
  simp only [List.mem_cons, List.mem_singleton, List.not_mem_nil, or_false] at h
  rcases h with h | h | h | h | h | h | h | h | h | h | h | h <;> subst h <;>
    exact ⟨_, _, _, rfl, rfl, by decide, rfl⟩

theorem rate_index_absent (rate : Nat)
    (h : rate ∉ [1, 2, 4, 8, 10, 12, 16, 20, 24, 30, 48, 50]) :
    rate_index rate = .absent 12 := by
  simp only [List.mem_cons, List.mem_singleton, List.not_mem_nil, or_false, not_or] at h
  obtain ⟨h1, h2, h4, h8, h10, h12, h16, h20, h24, h30, h48, h50⟩ := h
  simp only [rate_index, if_neg h1, if_neg h2, if_neg h4, if_neg h8, if_neg h10, if_neg h12,
    if_neg h16, if_neg h20, if_neg h24, if_neg h30, if_neg h48, if_neg h50]

theorem set_samplerate_ok (rate : Nat) (s : Dev)
    (h : rate ∈ [1, 2, 4, 8, 10, 12, 16, 20, 24, 30, 48, 50]) :
    ∃ row, row ∈ samplerates ∧ row.rate = rate ∧
      set_samplerate rate s = .ret true (load_program row s) := by
  obtain ⟨i, c, row, hi, hrow, hmem, hr⟩ := rate_index_found rate h
  refine ⟨row, hmem, hr, ?_⟩
  rw [set_samplerate_eq, hi]
  simp only [hrow]

theorem set_samplerate_reject (rate : Nat) (s : Dev)
    (h : rate ∉ [1, 2, 4, 8, 10, 12, 16, 20, 24, 30, 48, 50]) :
    set_samplerate rate s = .ret false s := by
  rw [set_samplerate_eq, rate_index_absent rate h]

/-- C4: for every rate, `set_samplerate` returns, and it returns TRUE exactly
when the rate is one of 1, 2, 4, 8, 10, 12, 16, 20, 24, 30, 48, 50; when it
returns FALSE the device state is the one before the call, so no register
(`IFCONFIG`, the auto-pointer registers, the sequencer memory window) was
written. -/
theorem set_samplerate_accepts (rate : Nat) (s : Dev) :
    ∃ b s', set_samplerate rate s = .ret b s' ∧
      (b = true ↔ rate ∈ [1, 2, 4, 8, 10, 12, 16, 20, 24, 30, 48, 50]) ∧
      (b = false → s' = s) := by
  by_cases h : rate ∈ [1, 2, 4, 8, 10, 12, 16, 20, 24, 30, 48, 50]
  · obtain ⟨row, _, _, hs⟩ := set_samplerate_ok rate s h
    exact ⟨true, _, hs, by simp [h], by simp⟩
  · exact ⟨false, s, set_samplerate_reject rate s h, by simp [h], fun _ => rfl⟩

theorem samplerates_bytes : ∀ row ∈ samplerates,
    row.wait0 < 256 ∧ row.wait1 < 256 ∧ row.opc0 < 256 ∧ row.opc1 < 256 ∧
    row.out0 < 256 ∧ row.ifcfg < 256 := by
  decide

theorem load_program_log (row : samplerate_info) (s : Dev) :
    (load_program row s).log =
      s.log ++ [(Reg.IFCONFIG, row.ifcfg % 256), (Reg.AUTOPTRSETUP, 7), (Reg.AUTOPTRH2, 0xE4),
                (Reg.AUTOPTRL2, 0)] ++
        ([row.wait0 % 256, row.wait1 % 256, 1, 0, 0, 0, 0, 0,
          row.opc0 % 256, row.opc1 % 256, 1, 0, 0, 0, 0, 0,
          row.out0 % 256, 0x44, 0x44, 0, 0, 0, 0, 0] ++ List.replicate 104 0).map
          (fun v => (Reg.EXTAUTODAT2, v)) := by
  simp only [load_program, zero_fill_log, writeAll_log, write_log]
  simp [List.replicate_succ]

theorem load_program_ifconfig (row : samplerate_info) (s : Dev) :
    (load_program row s).regs .IFCONFIG = row.ifcfg % 256 := by
  simp only [load_program]
  rw [zero_fill_regs _ _ _ (by decide), writeAll_regs _ _ _ _ (by decide),
    writeAll_regs _ _ _ _ (by decide), writeAll_regs _ _ _ _ (by decide),
    writeAll_regs _ _ _ _ (by decide)]
  simp

/-- C5, as the code has it: for each of the twelve rates `set_samplerate`
returns TRUE with `IFCONFIG` holding the row's `ifcfg`, and its writes are, in
order and with nothing else, `IFCONFIG`, the three auto-pointer registers, and
through `EXTAUTODAT2` the wait record `[wait0, wait1, 1, 0, 0, 0, 0, 0]`, the
branch/opcode record `[opc0, opc1, 1, 0, 0, 0, 0, 0]`, the output-enable
record `[out0, 0x44, 0x44, 0, 0, 0, 0, 0]` and then 104 zero bytes (8 written
one by one, 96 by the loop), for the table row whose key is the rate. -/
theorem set_samplerate_program (rate : Nat) (s : Dev)
    (h : rate ∈ [1, 2, 4, 8, 10, 12, 16, 20, 24, 30, 48, 50]) :
    ∃ row s', row ∈ samplerates ∧ row.rate = rate ∧
      set_samplerate rate s = .ret true s' ∧
      s'.regs .IFCONFIG = row.ifcfg ∧
      s'.log = s.log ++
        [(Reg.IFCONFIG, row.ifcfg), (Reg.AUTOPTRSETUP, 7), (Reg.AUTOPTRH2, 0xE4),
         (Reg.AUTOPTRL2, 0)] ++
        ([row.wait0, row.wait1, 1, 0, 0, 0, 0, 0] ++
         [row.opc0, row.opc1, 1, 0, 0, 0, 0, 0] ++
         [row.out0, 0x44, 0x44, 0, 0, 0, 0, 0] ++
         List.replicate 104 0).map (fun v => (Reg.EXTAUTODAT2, v)) := by
  obtain ⟨row, hmem, hr, hs⟩ := set_samplerate_ok rate s h
  obtain ⟨b0, b1, b2, b3, b4, b5⟩ := samplerates_bytes row hmem
  refine ⟨row, _, hmem, hr, hs, ?_, ?_⟩
  · rw [load_program_ifconfig, Nat.mod_eq_of_lt b5]
  · rw [load_program_log, Nat.mod_eq_of_lt b0, Nat.mod_eq_of_lt b1, Nat.mod_eq_of_lt b2,
      Nat.mod_eq_of_lt b3, Nat.mod_eq_of_lt b4, Nat.mod_eq_of_lt b5]
    rfl

/-- Instance of C5 as the code has it: rate 24. -/
theorem set_samplerate_program_witness :
    ∃ row s', row ∈ samplerates ∧ row.rate = 24 ∧
      set_samplerate 24 devA = .ret true s' ∧
      s'.regs .IFCONFIG = row.ifcfg ∧
      s'.log = devA.log ++
        [(Reg.IFCONFIG, row.ifcfg), (Reg.AUTOPTRSETUP, 7), (Reg.AUTOPTRH2, 0xE4),
         (Reg.AUTOPTRL2, 0)] ++
        ([row.wait0, row.wait1, 1, 0, 0, 0, 0, 0] ++
         [row.opc0, row.opc1, 1, 0, 0, 0, 0, 0] ++
         [row.out0, 0x44, 0x44, 0, 0, 0, 0, 0] ++
         List.replicate 104 0).map (fun v => (Reg.EXTAUTODAT2, v)) :=
  set_samplerate_program 24 devA (by decide)

set_option maxRecDepth 100000 in
/-- C5 fails as stated: for rate 1 the bytes stored through `EXTAUTODAT2`
are not the 120 bytes of the specification's layout; the third byte is 1 and
128 bytes are stored. -/
theorem set_samplerate_program_differs :
    stores .EXTAUTODAT2 (set_samplerate 1 dev0).state.log ≠
        spec_program ⟨1, 24, 23, 2, 0, 0x40, 0xca⟩ ∧
    (stores .EXTAUTODAT2 (set_samplerate 1 dev0).state.log)[2]? = some 1 ∧
    (stores .EXTAUTODAT2 (set_samplerate 1 dev0).state.log).length = 128 ∧
    (spec_program ⟨1, 24, 23, 2, 0, 0x40, 0xca⟩).length = 120 := by
  decide

/-- C6: `set_numchannels(n)` returns TRUE exactly when `n` is 1 or 2; then
`EP2FIFOCFG` and `EP6FIFOCFG` both hold `7 + n`, every other register and
every variable is as before, and the two stores are the only writes; when it
returns FALSE the device state is unchanged. -/
theorem set_numchannels_spec (n : Nat) (s : Dev) :
    ((set_numchannels n s).1 = true ↔ (n = 1 ∨ n = 2)) ∧
    ((set_numchannels n s).1 = true →
      (set_numchannels n s).2.regs .EP2FIFOCFG = 7 + n ∧
      (set_numchannels n s).2.regs .EP6FIFOCFG = 7 + n ∧
      (∀ r, r ≠ .EP2FIFOCFG → r ≠ .EP6FIFOCFG → (set_numchannels n s).2.regs r = s.regs r) ∧
      (set_numchannels n s).2.altiface = s.altiface ∧
      (set_numchannels n s).2.ledcounter = s.ledcounter ∧
      (set_numchannels n s).2.dosud = s.dosud ∧
      (set_numchannels n s).2.dosuspend = s.dosuspend ∧
      (set_numchannels n s).2.log = s.log ++ [(.EP2FIFOCFG, 7 + n), (.EP6FIFOCFG, 7 + n)]) ∧
    ((set_numchannels n s).1 = false → (set_numchannels n s).2 = s) := by
  by_cases h : n = 1 ∨ n = 2
  · have hm : (7 + n) % 256 = 7 + n := by omega
    simp only [set_numchannels, if_pos h, hm, Nat.mod_mod, write_regs, write_log,
      write_altiface, write_ledcounter, write_dosud, write_dosuspend]
    refine ⟨by simp [h], fun _ => ⟨?_, ?_, ?_, trivial, trivial, trivial, trivial, by simp⟩, by simp⟩
    · simp [Function.update_apply]
    · simp
    · intro r h2 h6
      simp [Function.update_apply, h2, h6]
  · simp [set_numchannels, h]

/-! ## Busy-waits -/

theorem spin_some (again : Nat → Bool) (reads : Nat → Nat) :
    ∀ (d k0 fuel : Nat), again (reads (k0 + d) % 256) = false → d < fuel →
      ∃ n, spin again reads fuel k0 = some n := by
  intro d
  induction d with
  | zero =>
    intro k0 fuel h hf
    obtain ⟨f, rfl⟩ : ∃ f, fuel = f + 1 := ⟨fuel - 1, by omega⟩
    simp only [Nat.add_zero] at h
    exact ⟨k0 + 1, by simp [spin, h]⟩
  | succ d ih =>
    intro k0 fuel h hf
    obtain ⟨f, rfl⟩ : ∃ f, fuel = f + 1 := ⟨fuel - 1, by omega⟩
    by_cases hk : again (reads k0 % 256) = true
    · have h2 : again (reads (k0 + 1 + d) % 256) = false := by
        rw [show k0 + 1 + d = k0 + (d + 1) by omega]; exact h
      obtain ⟨n, hn⟩ := ih (k0 + 1) f h2 (by omega)
      exact ⟨n, by simp [spin, hk, hn]⟩
    · exact ⟨k0 + 1, by simp [spin, hk]⟩

theorem start_sampling_eq (env : Env) (fuel : Nat) (s : Dev) :
    start_sampling env fuel s =
      match spin (fun v => v &&& 0x80 = 0) env.GPIFTRIG fuel 0 with
      | none => .stuck (clear_fifo s)
      | some _ => .ret () (armed s) := by
  unfold start_sampling
  cases spin (fun v => decide (v &&& 0x80 = 0)) env.GPIFTRIG fuel 0 <;> rfl

theorem start_sampling_ready (env : Env) (s : Dev) (k fuel : Nat)
    (h : env.GPIFTRIG k % 256 &&& 0x80 ≠ 0) (hf : k < fuel) :
    start_sampling env fuel s = .ret () (armed s) := by
  obtain ⟨n, hn⟩ := spin_some (fun v => decide (v &&& 0x80 = 0)) env.GPIFTRIG k 0 fuel
    (by simpa using h) hf
  rw [start_sampling_eq, hn]

theorem set_samplerate_ret (rate : Nat) (s : Dev) :
    ∃ b s', set_samplerate rate s = .ret b s' := by
  by_cases h : rate ∈ [1, 2, 4, 8, 10, 12, 16, 20, 24, 30, 48, 50]
  · obtain ⟨row, _, _, hs⟩ := set_samplerate_ok rate s h
    exact ⟨true, _, hs⟩
  · exact ⟨false, s, set_samplerate_reject rate s h⟩

theorem vendor_switch_ret (env : Env) (cmd : Nat) (s : Dev) (k fuel : Nat)
    (h : env.GPIFTRIG k % 256 &&& 0x80 ≠ 0) (hf : k < fuel) :
    ∃ s', vendor_switch env fuel cmd s =
      .ret (decide (0xe0 ≤ cmd ∧ cmd ≤ 0xe4)) s' := by
  unfold vendor_switch
  by_cases h01 : cmd = 0xe0 ∨ cmd = 0xe1
  · rw [if_pos h01]
    exact ⟨_, by rw [decide_eq_true (by omega)]⟩
  rw [if_neg h01]
  by_cases h2 : cmd = 0xe2
  · rw [if_pos h2]
    obtain ⟨b, s', hs⟩ := set_samplerate_ret (env.EP0BUF0 % 256) s
    exact ⟨s', by rw [hs, decide_eq_true (by omega)]⟩
  rw [if_neg h2]
  by_cases h3 : cmd = 0xe3
  · rw [if_pos h3]
    by_cases hp : env.EP0BUF0 % 256 = 1
    · rw [if_pos hp, start_sampling_ready env s k fuel h hf]
      exact ⟨_, by rw [decide_eq_true (by omega)]⟩
    · rw [if_neg hp]
      exact ⟨_, by rw [decide_eq_true (by omega)]⟩
  rw [if_neg h3]
  by_cases h4 : cmd = 0xe4
  · rw [if_pos h4]
    exact ⟨_, by rw [decide_eq_true (by omega)]⟩
  rw [if_neg h4]
  exact ⟨_, by rw [decide_eq_false (by omega)]⟩

/-- C7: when the endpoint-0 busy flag and the sequencer ready flag each
show at some poll, `handle_vendorcommand(cmd)` returns for all large enough
fuel, and its result is TRUE exactly when `0xE0 <= cmd <= 0xE4`, whatever the
payload byte and whether or not the inner setter accepts it. -/
theorem handle_vendorcommand_handled (env : Env) (cmd : Nat) (s : Dev)
    (hep0 : ∃ k, env.EP0CS k % 256 &&& env.bmEPBUSY = 0)
    (htrig : ∃ k, env.GPIFTRIG k % 256 &&& 0x80 ≠ 0) :
    ∃ fuel0, ∀ fuel, fuel0 ≤ fuel →
      ∃ s', handle_vendorcommand env fuel cmd s =
        .ret (decide (0xe0 ≤ cmd ∧ cmd ≤ 0xe4)) s' := by
  obtain ⟨k1, h1⟩ := hep0
  obtain ⟨k2, h2⟩ := htrig
  refine ⟨k1 + k2 + 1, fun fuel hf => ?_⟩
  obtain ⟨n, hn⟩ := spin_some (fun v => decide (v &&& env.bmEPBUSY ≠ 0)) env.EP0CS k1 0 fuel
    (by simpa using h1) (by omega)
  unfold handle_vendorcommand
  by_cases hr : cmd ≥ 0xe0 ∧ cmd ≤ 0xe4
  · simp only [if_pos hr, hn]
    exact vendor_switch_ret env cmd _ k2 fuel h2 (by omega)
  · simp only [if_neg hr]
    exact vendor_switch_ret env cmd _ k2 fuel h2 (by omega)

/-- Instance of C7: command `0xE3` with payload 1 on a bus that is busy for
three polls. -/
theorem handle_vendorcommand_handled_witness :
    ((∃ k, env1.EP0CS k % 256 &&& env1.bmEPBUSY = 0) ∧
     (∃ k, env1.GPIFTRIG k % 256 &&& 0x80 ≠ 0)) ∧
    ∃ fuel0, ∀ fuel, fuel0 ≤ fuel →
      ∃ s', handle_vendorcommand env1 fuel 0xe3 devA =
        .ret (decide (0xe0 ≤ 0xe3 ∧ 0xe3 ≤ 0xe4)) s' :=
  ⟨⟨⟨3, by decide⟩, ⟨1, by decide⟩⟩,
   handle_vendorcommand_handled env1 0xe3 devA ⟨3, by decide⟩ ⟨1, by decide⟩⟩

/-! ## Trace growth -/

theorem set_voltage_log (channel val : Nat) (s : Dev) :
    ∃ rest, (set_voltage channel val s).2.log = s.log ++ rest := by
  unfold set_voltage
  simp only []
  split_ifs <;> first | exact ⟨_, rfl⟩ | exact ⟨[], by simp⟩

theorem set_numchannels_log (n : Nat) (s : Dev) :
    ∃ rest, (set_numchannels n s).2.log = s.log ++ rest := by
  unfold set_numchannels
  split_ifs
  · exact ⟨_, by rw [write_log, write_log, List.append_assoc]⟩
  · exact ⟨[], by simp⟩

theorem set_samplerate_log (rate : Nat) (s : Dev) :
    ∃ rest, (set_samplerate rate s).state.log = s.log ++ rest := by
  by_cases h : rate ∈ [1, 2, 4, 8, 10, 12, 16, 20, 24, 30, 48, 50]
  · obtain ⟨row, _, _, hs⟩ := set_samplerate_ok rate s h
    rw [hs]
    exact ⟨_, by simp only [Run.state, load_program_log, List.append_assoc]; rfl⟩
  · rw [set_samplerate_reject rate s h]
    exact ⟨[], by simp [Run.state]⟩

theorem clear_fifo_log (s : Dev) :
    (clear_fifo s).log = s.log ++ [(.GPIFABORT, 0xff), (.FIFORESET, 0x80), (.FIFORESET, 0x82),
      (.FIFORESET, 0x86), (.FIFORESET, 0)] := by
  simp [clear_fifo]

theorem armed_log (s : Dev) :
    (armed s).log = s.log ++ [(.GPIFABORT, 0xff), (.FIFORESET, 0x80), (.FIFORESET, 0x82),
      (.FIFORESET, 0x86), (.FIFORESET, 0), (.GPIFTCB1, 0x28), (.GPIFTCB0, 0),
      (.GPIFTRIG, if s.altiface = 0 then 6 else 4), (.PC0, 1), (.PC1, 0)] := by
  by_cases h : s.altiface = 0 <;> simp [armed, clear_fifo, h]

theorem start_sampling_log (env : Env) (fuel : Nat) (s : Dev) :
    ∃ rest, (start_sampling env fuel s).state.log = s.log ++ rest := by
  rw [start_sampling_eq]
  cases spin (fun v => decide (v &&& 0x80 = 0)) env.GPIFTRIG fuel 0
  · exact ⟨_, clear_fifo_log s⟩
  · exact ⟨_, armed_log s⟩

theorem vendor_switch_log (env : Env) (fuel cmd : Nat) (s : Dev) :
    ∃ rest, (vendor_switch env fuel cmd s).state.log = s.log ++ rest := by
  unfold vendor_switch
  split_ifs
  · exact set_voltage_log _ _ s
  · obtain ⟨rest, hr⟩ := set_samplerate_log (env.EP0BUF0 % 256) s
    refine ⟨rest, ?_⟩
    cases hs : set_samplerate (env.EP0BUF0 % 256) s <;> rw [hs] at hr <;> exact hr
  · obtain ⟨rest, hr⟩ := start_sampling_log env fuel s
    refine ⟨rest, ?_⟩
    cases hs : start_sampling env fuel s <;> rw [hs] at hr <;> exact hr
  · exact ⟨[], by simp [Run.state]⟩
  · exact set_numchannels_log _ s
  · exact ⟨[], by simp [Run.state]⟩

theorem stop_sampling_log (s : Dev) :
    (stop_sampling s).log =
      s.log ++ [(.GPIFABORT, 0xff), (.INPKTEND, if s.altiface = 0 then 6 else 2)] := by
  by_cases h : s.altiface = 0 <;> simp [stop_sampling, h]

/-- C8: for every command byte, payload and fuel, the writes made by
`handle_vendorcommand`, whether it returns or is still waiting, begin with
the two writes of `stop_sampling` (`GPIFABORT = 0xFF`, then `INPKTEND` = 6 for
alt setting 0 and 2 otherwise); the LED pins and every write of the command
itself follow. -/
theorem handle_vendorcommand_stops_first (env : Env) (fuel cmd : Nat) (s : Dev) :
    (stop_sampling s).log =
      s.log ++ [(.GPIFABORT, 0xff), (.INPKTEND, if s.altiface = 0 then 6 else 2)] ∧
    ∃ rest, (handle_vendorcommand env fuel cmd s).state.log =
      (stop_sampling s).log ++ [(.PC0, 0), (.PC1, 1)] ++ rest := by
  refine ⟨stop_sampling_log s, ?_⟩
  unfold handle_vendorcommand
  simp only []
  split_ifs
  · cases spin (fun v => decide (v &&& env.bmEPBUSY ≠ 0)) env.EP0CS fuel 0
    · exact ⟨[(.EP0BCH, 0), (.EP0BCL, 0)], by simp [Run.state]⟩
    · obtain ⟨rest, hr⟩ := vendor_switch_log env fuel cmd
        (write .EP0BCL 0 (write .EP0BCH 0
          (set_ledcounter 1000 (write .PC1 1 (write .PC0 0 (stop_sampling s))))))
      exact ⟨[(.EP0BCH, 0), (.EP0BCL, 0)] ++ rest, by simp [hr]⟩
  · obtain ⟨rest, hr⟩ := vendor_switch_log env fuel cmd
      (set_ledcounter 1000 (write .PC1 1 (write .PC0 0 (stop_sampling s))))
    exact ⟨rest, by simp [hr]⟩

/-- C9, as the code has it: once `GPIFTRIG` shows bit 0x80 at some poll,
`start_sampling` returns and its register writes are, in order,
`GPIFABORT = 0xFF`, `FIFORESET = 0x80, 0x82, 0x86, 0x00`, `GPIFTCB1 = 0x28`,
`GPIFTCB0 = 0`, `GPIFTRIG` = 6 for alt setting 0 and 4 otherwise, and after
the trigger the two LED pin writes `PC0 = 1`, `PC1 = 0`. -/
theorem start_sampling_writes (env : Env) (s : Dev)
    (h : ∃ k, env.GPIFTRIG k % 256 &&& 0x80 ≠ 0) :
    ∃ fuel0, ∀ fuel, fuel0 ≤ fuel →
      ∃ s', start_sampling env fuel s = .ret () s' ∧
        s'.log = s.log ++
          [(.GPIFABORT, 0xFF), (.FIFORESET, 0x80), (.FIFORESET, 0x82), (.FIFORESET, 0x86),
           (.FIFORESET, 0x00), (.GPIFTCB1, 0x28), (.GPIFTCB0, 0x00),
           (.GPIFTRIG, if s.altiface = 0 then 6 else 4)] ++
          [(.PC0, 1), (.PC1, 0)] := by
  obtain ⟨k, hk⟩ := h
  refine ⟨k + 1, fun fuel hf => ⟨armed s, start_sampling_ready env s k fuel hk (by omega), ?_⟩⟩
  rw [armed_log, List.append_assoc]
  rfl

/-- Instance of C9 as the code has it: isochronous alt setting, sequencer
ready at the second poll. -/
theorem start_sampling_writes_witness :
    (∃ k, env1.GPIFTRIG k % 256 &&& 0x80 ≠ 0) ∧
    ∃ fuel0, ∀ fuel, fuel0 ≤ fuel →
      ∃ s', start_sampling env1 fuel devA = .ret () s' ∧
        s'.log = devA.log ++
          [(.GPIFABORT, 0xFF), (.FIFORESET, 0x80), (.FIFORESET, 0x82), (.FIFORESET, 0x86),
           (.FIFORESET, 0x00), (.GPIFTCB1, 0x28), (.GPIFTCB0, 0x00),
           (.GPIFTRIG, if devA.altiface = 0 then 6 else 4)] ++
          [(.PC0, 1), (.PC1, 0)] :=
  ⟨⟨1, by decide⟩, start_sampling_writes env1 devA ⟨1, by decide⟩⟩

/-- C9 fails as stated: with the sequencer ready, `start_sampling` returns
with a trace that is not the specification's list ending in the trigger; its
last write is `PC1 = 0`. -/
theorem start_sampling_trigger_not_last :
    (∃ k, env1.GPIFTRIG k % 256 &&& 0x80 ≠ 0) ∧
    (∃ s', start_sampling env1 2 dev0 = .ret () s') ∧
    (start_sampling env1 2 dev0).state.log ≠ dev0.log ++ spec_start_writes dev0.altiface ∧
    (start_sampling env1 2 dev0).state.log.getLast? = some (.PC1, 0) :=
  ⟨⟨1, by decide⟩, ⟨_, rfl⟩, by decide, by decide⟩

/-! ## `select_interface` -/

theorem and7_lt (x : Nat) : x &&& 0x7 < 256 :=
  lt_of_le_of_lt Nat.and_le_right (by decide)

theorem shr3_lt (x : Nat) : ((x % 256) >>> 3) + 1 < 256 := by
  rw [Nat.shiftRight_eq_div_pow]
  have : x % 256 < 256 := Nat.mod_lt _ (by decide)
  omega

/-- C10, as the code has it: after `select_interface(0)`,
`select_interface(1)`, `select_interface(0)` the alt setting and every
register other than `EP2GPIFFLGSEL`, `EP2AUTOINLENL`, `EP2AUTOINLENH` and
`EP2ISOINPKTS` equal those after a single `select_interface(0)`; these four
keep what `select_interface(1)` stored (1, descriptor byte 38, the low three
bits of byte 39, and `(byte 39 >> 3) + 1`), while a single
`select_interface(0)` leaves them as they were. -/
theorem select_interface_round_trip (env : Env) (s : Dev) :
    (select_interface env 0 (select_interface env 1 (select_interface env 0 s))).altiface =
      (select_interface env 0 s).altiface ∧
    (∀ r, r ≠ .EP2GPIFFLGSEL → r ≠ .EP2AUTOINLENL → r ≠ .EP2AUTOINLENH → r ≠ .EP2ISOINPKTS →
      (select_interface env 0 (select_interface env 1 (select_interface env 0 s))).regs r =
        (select_interface env 0 s).regs r) ∧
    (select_interface env 0 (select_interface env 1 (select_interface env 0 s))).regs
        .EP2GPIFFLGSEL = 1 ∧
    (select_interface env 0 (select_interface env 1 (select_interface env 0 s))).regs
        .EP2AUTOINLENL =
      (if env.USBCS % 256 &&& env.bmHSM ≠ 0 then env.highspd_dscr else env.fullspd_dscr) 38
        % 256 ∧
    (select_interface env 0 (select_interface env 1 (select_interface env 0 s))).regs
        .EP2AUTOINLENH =
      ((if env.USBCS % 256 &&& env.bmHSM ≠ 0 then env.highspd_dscr else env.fullspd_dscr) 39
        % 256) &&& 0x7 ∧
    (select_interface env 0 (select_interface env 1 (select_interface env 0 s))).regs
        .EP2ISOINPKTS =
      (((if env.USBCS % 256 &&& env.bmHSM ≠ 0 then env.highspd_dscr else env.fullspd_dscr) 39
        % 256) >>> 3) + 1 ∧
    (select_interface env 0 s).regs .EP2GPIFFLGSEL = s.regs .EP2GPIFFLGSEL ∧
    (select_interface env 0 s).regs .EP2AUTOINLENL = s.regs .EP2AUTOINLENL ∧
    (select_interface env 0 s).regs .EP2AUTOINLENH = s.regs .EP2AUTOINLENH ∧
    (select_interface env 0 s).regs .EP2ISOINPKTS = s.regs .EP2ISOINPKTS := by
  refine ⟨rfl, ?_, ?_, ?_, ?_, ?_, ?_, ?_, ?_, ?_⟩
  · intro r h1 h2 h3 h4
    simp only [select_interface, write_regs, set_altiface_regs, Function.update_apply,
      if_true, if_neg h1, if_neg h2, if_neg h3, if_neg h4, if_neg (show ¬ (1 = 0) by decide)]
    split_ifs <;> rfl
  · simp [select_interface, Function.update_apply]
  · simp [select_interface, Function.update_apply]
  · simp [select_interface, Function.update_apply, Nat.mod_eq_of_lt (and7_lt _)]
  · simp [select_interface, Function.update_apply, Nat.mod_eq_of_lt (shr3_lt _)]
  · simp [select_interface, Function.update_apply]
  · simp [select_interface, Function.update_apply]
  · simp [select_interface, Function.update_apply]
  · simp [select_interface, Function.update_apply]

/-- C10 fails as stated: from a cleared device `EP2GPIFFLGSEL` and
`EP2ISOINPKTS` differ between the round trip and a single
`select_interface(0)`. -/
theorem select_interface_round_trip_differs :
    (select_interface env1 0 (select_interface env1 1 (select_interface env1 0 dev0))).regs
        .EP2GPIFFLGSEL ≠ (select_interface env1 0 dev0).regs .EP2GPIFFLGSEL ∧
    (select_interface env1 0 (select_interface env1 1 (select_interface env1 0 dev0))).regs
        .EP2ISOINPKTS = 3 ∧
    (select_interface env1 0 dev0).regs .EP2ISOINPKTS = 0 := by
  decide

/-! ## Interface hooks, the waveform block, and the command scenarios -/

/-- C11: `select_interface` reads the packet size from the descriptor chosen
by the high-speed bit of `USBCS` (`highspd_dscr` when `USBCS & bmHSM` is
non-zero, `fullspd_dscr` otherwise) at offset `9 + 16 * alt + 9 + 4`, 22 for
alt 0 and 38 for alt 1: alt 0 stores bytes 22 and 23 into `EP6AUTOINLENL/H`;
alt 1 stores byte 38 into `EP2AUTOINLENL`, the low three bits of byte 39 into
`EP2AUTOINLENH` and `(byte 39 >> 3) + 1` into `EP2ISOINPKTS`. -/
theorem select_interface_packet_size (env : Env) (s : Dev) :
    (select_interface env 0 s).regs .EP6AUTOINLENL =
      (if env.USBCS % 256 &&& env.bmHSM ≠ 0 then env.highspd_dscr else env.fullspd_dscr)
        (9 + 16 * 0 + 9 + 4) % 256 ∧
    (select_interface env 0 s).regs .EP6AUTOINLENH =
      (if env.USBCS % 256 &&& env.bmHSM ≠ 0 then env.highspd_dscr else env.fullspd_dscr)
        (9 + 16 * 0 + 9 + 4 + 1) % 256 ∧
    (select_interface env 1 s).regs .EP2AUTOINLENL =
      (if env.USBCS % 256 &&& env.bmHSM ≠ 0 then env.highspd_dscr else env.fullspd_dscr)
        (9 + 16 * 1 + 9 + 4) % 256 ∧
    (select_interface env 1 s).regs .EP2AUTOINLENH =
      ((if env.USBCS % 256 &&& env.bmHSM ≠ 0 then env.highspd_dscr else env.fullspd_dscr)
        (9 + 16 * 1 + 9 + 4 + 1) % 256) &&& 0x7 ∧
    (select_interface env 1 s).regs .EP2ISOINPKTS =
      (((if env.USBCS % 256 &&& env.bmHSM ≠ 0 then env.highspd_dscr else env.fullspd_dscr)
        (9 + 16 * 1 + 9 + 4 + 1) % 256) >>> 3) + 1 ∧
    9 + 16 * 0 + 9 + 4 = 22 ∧ 9 + 16 * 1 + 9 + 4 = 38 := by
  refine ⟨?_, ?_, ?_, ?_, ?_, rfl, rfl⟩
  · simp [select_interface, Function.update_apply]
  · simp [select_interface, Function.update_apply]
  · simp [select_interface, Function.update_apply]
  · simp [select_interface, Function.update_apply, Nat.mod_eq_of_lt (and7_lt _)]
  · simp [select_interface, Function.update_apply, Nat.mod_eq_of_lt (shr3_lt _)]

theorem select_interface_altiface (env : Env) (alt : Nat) (s : Dev) :
    (select_interface env alt s).altiface = alt % 256 := by
  unfold select_interface
  simp only []
  split_ifs <;> rfl

theorem select_interface_cfg (env : Env) (alt : Nat) (s : Dev) :
    (alt = 0 → (select_interface env alt s).regs .EP2CFG = 0x00 ∧
                (select_interface env alt s).regs .EP6CFG = 0xe0) ∧
    (alt ≠ 0 → (select_interface env alt s).regs .EP2CFG = 0xd8 ∧
                (select_interface env alt s).regs .EP6CFG = 0x00) := by
  constructor
  · intro h
    simp [select_interface, h, Function.update_apply]
  · intro h
    simp [select_interface, h, Function.update_apply]

theorem stop_sampling_regs (s : Dev) (r : Reg) (h1 : r ≠ .GPIFABORT) (h2 : r ≠ .INPKTEND) :
    (stop_sampling s).regs r = s.regs r := by
  simp [stop_sampling, Function.update_apply, h1, h2]

theorem stop_sampling_vars (s : Dev) :
    (stop_sampling s).altiface = s.altiface ∧ (stop_sampling s).ledcounter = s.ledcounter ∧
    (stop_sampling s).dosud = s.dosud ∧ (stop_sampling s).dosuspend = s.dosuspend :=
  ⟨rfl, rfl, rfl, rfl⟩

/-- C12: after `select_interface(alt)` for a byte `alt`, `stop_sampling`
writes `GPIFABORT = 0xFF` and then `INPKTEND` = 6 when `alt` is 0 (where
`EP6CFG = 0xE0`) and 2 otherwise (where `EP2CFG = 0xD8`, `EP6CFG = 0`); no
other register and no variable, the alt setting included, changes. -/
theorem stop_sampling_endpoint (env : Env) (alt : Nat) (s : Dev) (ha : alt < 256) :
    (stop_sampling (select_interface env alt s)).log =
      (select_interface env alt s).log ++
        [(.GPIFABORT, 0xFF), (.INPKTEND, if alt = 0 then 6 else 2)] ∧
    (alt = 0 → (select_interface env alt s).regs .EP6CFG = 0xE0) ∧
    (alt ≠ 0 → (select_interface env alt s).regs .EP2CFG = 0xD8 ∧
                (select_interface env alt s).regs .EP6CFG = 0) ∧
    (∀ r, r ≠ .GPIFABORT → r ≠ .INPKTEND →
      (stop_sampling (select_interface env alt s)).regs r =
        (select_interface env alt s).regs r) ∧
    (stop_sampling (select_interface env alt s)).altiface =
      (select_interface env alt s).altiface ∧
    (stop_sampling (select_interface env alt s)).ledcounter =
      (select_interface env alt s).ledcounter ∧
    (stop_sampling (select_interface env alt s)).dosud =
      (select_interface env alt s).dosud ∧
    (stop_sampling (select_interface env alt s)).dosuspend =
      (select_interface env alt s).dosuspend := by
  refine ⟨?_, fun h => ((select_interface_cfg env alt s).1 h).2,
    (select_interface_cfg env alt s).2, fun r h1 h2 => stop_sampling_regs _ r h1 h2,
    rfl, rfl, rfl, rfl⟩
  rw [stop_sampling_log, select_interface_altiface, Nat.mod_eq_of_lt ha]

/-- Instance of C12: alt setting 1 from a cleared device. -/
theorem stop_sampling_endpoint_witness :
    (stop_sampling (select_interface env1 1 dev0)).log =
      (select_interface env1 1 dev0).log ++
        [(.GPIFABORT, 0xFF), (.INPKTEND, if 1 = 0 then 6 else 2)] ∧
    (1 = 0 → (select_interface env1 1 dev0).regs .EP6CFG = 0xE0) ∧
    (1 ≠ 0 → (select_interface env1 1 dev0).regs .EP2CFG = 0xD8 ∧
                (select_interface env1 1 dev0).regs .EP6CFG = 0) ∧
    (∀ r, r ≠ .GPIFABORT → r ≠ .INPKTEND →
      (stop_sampling (select_interface env1 1 dev0)).regs r =
        (select_interface env1 1 dev0).regs r) ∧
    (stop_sampling (select_interface env1 1 dev0)).altiface =
      (select_interface env1 1 dev0).altiface ∧
    (stop_sampling (select_interface env1 1 dev0)).ledcounter =
      (select_interface env1 1 dev0).ledcounter ∧
    (stop_sampling (select_interface env1 1 dev0)).dosud =
      (select_interface env1 1 dev0).dosud ∧
    (stop_sampling (select_interface env1 1 dev0)).dosuspend =
      (select_interface env1 1 dev0).dosuspend :=
  stop_sampling_endpoint env1 1 dev0 (by decide)

/-- C13: for every interface number and every byte `alt`,
`handle_set_interface` returns TRUE; for interface 0 a following
`handle_get_interface` reports `alt`, for any other interface the state is
unchanged and the alt setting reported is the previous one;
`handle_get_interface` always returns TRUE and leaves the state as it is. -/
theorem set_get_interface (env : Env) (ifc alt : Nat) (s : Dev) (ha : alt < 256) :
    (handle_set_interface env ifc alt s).1 = true ∧
    (ifc = 0 → ∀ ifc2, (handle_get_interface ifc2 (handle_set_interface env ifc alt s).2).2.1
        = alt) ∧
    (ifc ≠ 0 → (handle_set_interface env ifc alt s).2 = s ∧
      ∀ ifc2, (handle_get_interface ifc2 (handle_set_interface env ifc alt s).2).2.1
        = s.altiface) ∧
    (∀ ifc2 t, (handle_get_interface ifc2 t).1 = true ∧ (handle_get_interface ifc2 t).2.2 = t ∧
      (handle_get_interface ifc2 t).2.1 = t.altiface) := by
  refine ⟨?_, ?_, ?_, fun _ _ => ⟨rfl, rfl, rfl⟩⟩
  · unfold handle_set_interface
    split_ifs <;> rfl
  · intro h ifc2
    simp only [handle_set_interface, if_pos h, handle_get_interface,
      select_interface_altiface, Nat.mod_eq_of_lt ha]
  · intro h
    simp only [handle_set_interface, if_neg h, handle_get_interface]
    exact ⟨trivial, fun _ => trivial⟩

/-- Instance of C13: interface 0, alt byte 200. -/
theorem set_get_interface_witness :
    (handle_set_interface env1 0 200 devA).1 = true ∧
    (0 = 0 → ∀ ifc2, (handle_get_interface ifc2 (handle_set_interface env1 0 200 devA).2).2.1
        = 200) ∧
    (0 ≠ 0 → (handle_set_interface env1 0 200 devA).2 = devA ∧
      ∀ ifc2, (handle_get_interface ifc2 (handle_set_interface env1 0 200 devA).2).2.1
        = devA.altiface) ∧
    (∀ ifc2 t, (handle_get_interface ifc2 t).1 = true ∧ (handle_get_interface ifc2 t).2.2 = t ∧
      (handle_get_interface ifc2 t).2.1 = t.altiface) :=
  set_get_interface env1 0 200 devA (by decide)

theorem program_bytes_eq (row : samplerate_info) :
    [row.wait0, row.wait1, 1, 0, 0, 0, 0, 0,
     row.opc0, row.opc1, 1, 0, 0, 0, 0, 0,
     row.out0, 0x44, 0x44, 0, 0, 0, 0, 0] ++ List.replicate 104 0 =
      (List.range 128).map (program_byte row) := by
  rfl

theorem load_program_pointer (row : samplerate_info) (s : Dev) :
    (load_program row s).regs .AUTOPTRSETUP = 7 ∧
    (load_program row s).regs .AUTOPTRH2 = 0xE4 ∧
    (load_program row s).regs .AUTOPTRL2 = 0x00 := by
  simp only [load_program]
  refine ⟨?_, ?_, ?_⟩ <;>
  · rw [zero_fill_regs _ _ _ (by decide), writeAll_regs _ _ _ _ (by decide),
      writeAll_regs _ _ _ _ (by decide), writeAll_regs _ _ _ _ (by decide),
      writeAll_regs _ _ _ _ (by decide)]
    simp [Function.update_apply]

/-- C17: for every accepted rate `set_samplerate` leaves `AUTOPTRSETUP = 7`,
`AUTOPTRH2 = 0xE4`, `AUTOPTRL2 = 0x00`, and after these stores writes exactly
128 bytes through `EXTAUTODAT2`: bytes 2 and 10 are 1, bytes 17 and 18 are
0x44, bytes 0, 1, 8, 9, 16 are the row's `wait0`, `wait1`, `opc0`, `opc1`,
`out0`, and every other byte is 0. -/
theorem set_samplerate_block (rate : Nat) (s : Dev)
    (h : rate ∈ [1, 2, 4, 8, 10, 12, 16, 20, 24, 30, 48, 50]) :
    ∃ (row : samplerate_info) (s' : Dev) (bytes : List Nat), row ∈ samplerates ∧ row.rate = rate ∧
      set_samplerate rate s = .ret true s' ∧
      s'.regs .AUTOPTRSETUP = 7 ∧ s'.regs .AUTOPTRH2 = 0xE4 ∧ s'.regs .AUTOPTRL2 = 0x00 ∧
      s'.log = s.log ++
        [(Reg.IFCONFIG, row.ifcfg), (Reg.AUTOPTRSETUP, 7), (Reg.AUTOPTRH2, 0xE4),
         (Reg.AUTOPTRL2, 0x00)] ++ bytes.map (fun v => (Reg.EXTAUTODAT2, v)) ∧
      bytes.length = 128 ∧
      bytes[2]? = some 1 ∧ bytes[10]? = some 1 ∧
      bytes[17]? = some 0x44 ∧ bytes[18]? = some 0x44 ∧
      bytes[0]? = some row.wait0 ∧ bytes[1]? = some row.wait1 ∧
      bytes[8]? = some row.opc0 ∧ bytes[9]? = some row.opc1 ∧
      bytes[16]? = some row.out0 ∧
      (∀ i, i < 128 → i ∉ [0, 1, 2, 8, 9, 10, 16, 17, 18] → bytes[i]? = some 0) := by
  obtain ⟨row, hmem, hr, hs⟩ := set_samplerate_ok rate s h
  obtain ⟨b0, b1, b2, b3, b4, b5⟩ := samplerates_bytes row hmem
  obtain ⟨p1, p2, p3⟩ := load_program_pointer row s
  refine ⟨row, _, (List.range 128).map (program_byte row), hmem, hr, hs, p1, p2, p3, ?_,
    by simp, rfl, rfl, rfl, rfl, rfl, rfl, rfl, rfl, rfl, ?_⟩
  · rw [load_program_log, Nat.mod_eq_of_lt b0, Nat.mod_eq_of_lt b1, Nat.mod_eq_of_lt b2,
      Nat.mod_eq_of_lt b3, Nat.mod_eq_of_lt b4, Nat.mod_eq_of_lt b5, program_bytes_eq]
  · intro i hi hn
    simp only [List.mem_cons, List.mem_singleton, List.not_mem_nil, or_false, not_or] at hn
    obtain ⟨h0, h1, h2, h8, h9, h10, h16, h17, h18⟩ := hn
    rw [List.getElem?_map, List.getElem?_range hi]
    simp only [Option.map_some', program_byte, if_neg h0, if_neg h1, if_neg h2, if_neg h8,
      if_neg h9, if_neg h10, if_neg h16, if_neg h17, if_neg h18]

/-- Instance of C17: rate 48. -/
theorem set_samplerate_block_witness :
    ∃ (row : samplerate_info) (s' : Dev) (bytes : List Nat), row ∈ samplerates ∧ row.rate = 48 ∧
      set_samplerate 48 dev0 = .ret true s' ∧
      s'.regs .AUTOPTRSETUP = 7 ∧ s'.regs .AUTOPTRH2 = 0xE4 ∧ s'.regs .AUTOPTRL2 = 0x00 ∧
      s'.log = dev0.log ++
        [(Reg.IFCONFIG, row.ifcfg), (Reg.AUTOPTRSETUP, 7), (Reg.AUTOPTRH2, 0xE4),
         (Reg.AUTOPTRL2, 0x00)] ++ bytes.map (fun v => (Reg.EXTAUTODAT2, v)) ∧
      bytes.length = 128 ∧
      bytes[2]? = some 1 ∧ bytes[10]? = some 1 ∧
      bytes[17]? = some 0x44 ∧ bytes[18]? = some 0x44 ∧
      bytes[0]? = some row.wait0 ∧ bytes[1]? = some row.wait1 ∧
      bytes[8]? = some row.opc0 ∧ bytes[9]? = some row.opc1 ∧
      bytes[16]? = some row.out0 ∧
      (∀ i, i < 128 → i ∉ [0, 1, 2, 8, 9, 10, 16, 17, 18] → bytes[i]? = some 0) :=
  set_samplerate_block 48 dev0 (by decide)

theorem samplerates_keys_nodup : (samplerates.map (fun row => row.rate)).Nodup := by
  decide

theorem rate_index_sound (rate : Nat) :
    match rate_index rate with
    | .found i c => i < 12 ∧ c = i + 1 ∧
        (∃ row, samplerates[i]? = some row ∧ row.rate = rate) ∧
        (∀ j row, samplerates[j]? = some row → row.rate = rate → j = i)
    | .absent c => c = 12 ∧ ∀ row ∈ samplerates, row.rate ≠ rate := by
  by_cases h : rate ∈ [1, 2, 4, 8, 10, 12, 16, 20, 24, 30, 48, 50]
  · simp only [List.mem_cons, List.mem_singleton, List.not_mem_nil, or_false] at h
    have key : ∀ j, j < 12 → ∀ row, samplerates[j]? = some row →
        row.rate ∈ [1, 2, 4, 8, 10, 12, 16, 20, 24, 30, 48, 50] →
        rate_index row.rate = .found j (j + 1) := by
      intro j hj row hrow _
      interval_cases j <;> simp [samplerates] at hrow <;> subst hrow <;> rfl
    rcases h with h | h | h | h | h | h | h | h | h | h | h | h <;> subst h <;>
      refine ⟨by decide, rfl, ⟨_, rfl, rfl⟩, ?_⟩ <;>
      · intro j row hj hrate
        have hjl : j < 12 := by
          by_contra hc
          rw [List.getElem?_eq_none (by simpa [samplerates_length] using hc)] at hj
          cases hj
        have := key j hjl row hj (by rw [hrate]; decide)
        rw [hrate] at this
        have e := this.symm.trans (by rfl : rate_index _ = _)
        injection e with e1 _
  · rw [rate_index_absent rate h]
    refine ⟨rfl, ?_⟩
    intro row hrow hrate
    apply h
    rw [← hrate]
    have all : ∀ r ∈ samplerates, r.rate ∈ [1, 2, 4, 8, 10, 12, 16, 20, 24, 30, 48, 50] := by
      decide
    exact all row hrow

/-- C18: for every rate the search loop of `set_samplerate` ends within 12
rounds with the same answer for any larger bound, without reading past the
table or wrapping the byte index (either would give no answer): a match is
at an index below 12 reached after index + 1 comparisons, it is the only row
with that key and the row `set_samplerate` loads; a miss takes exactly 12
comparisons and returns FALSE.  The twelve keys are pairwise distinct. -/
theorem find_rate_total (rate : Nat) :
    ∃ r, find_rate rate 12 0 0 = some r ∧
      (∀ fuel, 12 ≤ fuel → find_rate rate fuel 0 0 = some r) ∧
      (match r with
       | .found i c => i < 12 ∧ c = i + 1 ∧ c ≤ 12 ∧
           (∃ row, samplerates[i]? = some row ∧ row.rate = rate ∧
             ∀ s, set_samplerate rate s = .ret true (load_program row s)) ∧
           (∀ j row, samplerates[j]? = some row → row.rate = rate → j = i)
       | .absent c => c = 12 ∧ (∀ row ∈ samplerates, row.rate ≠ rate) ∧
           ∀ s, set_samplerate rate s = .ret false s) ∧
      (samplerates.map (fun row => row.rate)).Nodup ∧ samplerates.length = 12 := by
  refine ⟨rate_index rate, find_rate_eq rate 12 (le_refl _), fun fuel hf => find_rate_eq rate fuel hf,
    ?_, samplerates_keys_nodup, rfl⟩
  have hs := rate_index_sound rate
  have he := fun s => set_samplerate_eq rate s
  cases hri : rate_index rate with
  | found i c =>
    rw [hri] at hs
    simp only [hri] at he
    obtain ⟨hi, hc, ⟨row, hrow, hrate⟩, huniq⟩ := hs
    refine ⟨hi, hc, by omega, ⟨row, hrow, hrate, fun s => ?_⟩, huniq⟩
    rw [he s]
    simp only [hrow]
  | absent c =>
    rw [hri] at hs
    simp only [hri] at he
    exact ⟨hs.1, hs.2, he⟩

/-! ## Independence of the two voltage fields -/

set_option maxRecDepth 100000 in
theorem ioc_rmw_comm : ∀ x < 256, ∀ a < 4, ∀ b < 4,
    ioc_rmw 1 (0x24 * b) (ioc_rmw 0 (0x24 * a) x) =
      ioc_rmw 0 (0x24 * a) (ioc_rmw 1 (0x24 * b) x) := by
  decide

set_option maxRecDepth 100000 in
theorem ioc_rmw_idem : ∀ x < 256, ∀ c < 2, ∀ a < 4,
    ioc_rmw c (0x24 * a) (ioc_rmw c (0x24 * a) x) = ioc_rmw c (0x24 * a) x := by
  decide

theorem ioc_rmw_chan (c bits x : Nat) :
    ioc_rmw c bits x = ioc_rmw (if c ≠ 0 then 1 else 0) bits x := by
  by_cases h : c = 0 <;> simp [ioc_rmw, h]

theorem set_voltage_low_bits (ch val : Nat) (s : Dev) (hI : s.regs .IOC < 256) :
    ((set_voltage ch val s).2.regs .IOC).testBit 0 = (s.regs .IOC).testBit 0 ∧
    ((set_voltage ch val s).2.regs .IOC).testBit 1 = (s.regs .IOC).testBit 1 := by
  by_cases hv : val = 1 ∨ val = 2 ∨ val = 5 ∨ val = 10
  · rw [set_voltage_eq_of_valid ch val s hv, ioc_rmw_chan]
    have hc : (if ch ≠ 0 then 1 else 0) < 2 := by split_ifs <;> decide
    have hlt := ioc_rmw_lt _ hI _ hc _ (spec_selector_lt val)
    simp only [write_regs, Function.update_same, Nat.mod_eq_of_lt hlt]
    constructor
    · apply ioc_rmw_frame _ hI _ hc _ (spec_selector_lt val) 0 (by decide)
      split_ifs <;> decide
    · apply ioc_rmw_frame _ hI _ hc _ (spec_selector_lt val) 1 (by decide)
      split_ifs <;> decide
  · have hn : val ≠ 1 ∧ val ≠ 2 ∧ val ≠ 5 ∧ val ≠ 10 := by
      refine ⟨fun h => hv ?_, fun h => hv ?_, fun h => hv ?_, fun h => hv ?_⟩ <;> simp [h]
    simp [set_voltage, hn.1, hn.2.1, hn.2.2.1, hn.2.2.2]

/-- C19: for valid range codes `a`, `b` and a byte in `IOC`, setting channel
0 to `a` and channel 1 to `b` gives the same register file in either order;
a second `set_voltage(c, a)` leaves the register file as the first one made
it; and no call of `set_voltage`, valid or not, changes bit 0 or bit 1 of
`IOC`. -/
theorem set_voltage_independent (a b c : Nat) (s : Dev)
    (ha : a = 1 ∨ a = 2 ∨ a = 5 ∨ a = 10) (hb : b = 1 ∨ b = 2 ∨ b = 5 ∨ b = 10)
    (hI : s.regs .IOC < 256) :
    (set_voltage 1 b (set_voltage 0 a s).2).2.regs =
      (set_voltage 0 a (set_voltage 1 b s).2).2.regs ∧
    (set_voltage c a (set_voltage c a s).2).2.regs = (set_voltage c a s).2.regs ∧
    (∀ ch val,
      ((set_voltage ch val s).2.regs .IOC).testBit 0 = (s.regs .IOC).testBit 0 ∧
      ((set_voltage ch val s).2.regs .IOC).testBit 1 = (s.regs .IOC).testBit 1) := by
  have sa := spec_selector_lt a
  have sb := spec_selector_lt b
  refine ⟨?_, ?_, fun ch val => set_voltage_low_bits ch val s hI⟩
  · rw [set_voltage_eq_of_valid 0 a s ha, set_voltage_eq_of_valid 1 b s hb,
      set_voltage_eq_of_valid 1 b _ hb, set_voltage_eq_of_valid 0 a _ ha]
    have l0 := ioc_rmw_lt _ hI 0 (by decide) _ sa
    have l1 := ioc_rmw_lt _ hI 1 (by decide) _ sb
    simp only [write_regs, Function.update_same, Function.update_idem,
      Nat.mod_eq_of_lt l0, Nat.mod_eq_of_lt l1]
    rw [ioc_rmw_comm _ hI _ sa _ sb]
  · obtain ⟨k, hk, hch⟩ : ∃ k, k < 2 ∧ ∀ bits x, ioc_rmw c bits x = ioc_rmw k bits x :=
      ⟨if c ≠ 0 then 1 else 0, by split_ifs <;> decide, fun _ _ => ioc_rmw_chan c _ _⟩
    rw [set_voltage_eq_of_valid c a s ha, set_voltage_eq_of_valid c a _ ha]
    have l0 := ioc_rmw_lt _ hI _ hk _ sa
    simp only [write_regs, Function.update_same, Function.update_idem, hch,
      Nat.mod_eq_of_lt l0, ioc_rmw_idem _ hI _ hk _ sa]

/-- Instance of C19: codes 5 and 10, channel 1, `IOC = 0xA7`. -/
theorem set_voltage_independent_witness :
    (set_voltage 1 10 (set_voltage 0 5 devA).2).2.regs =
      (set_voltage 0 5 (set_voltage 1 10 devA).2).2.regs ∧
    (set_voltage 1 5 (set_voltage 1 5 devA).2).2.regs = (set_voltage 1 5 devA).2.regs ∧
    (∀ ch val,
      ((set_voltage ch val devA).2.regs .IOC).testBit 0 = (devA.regs .IOC).testBit 0 ∧
      ((set_voltage ch val devA).2.regs .IOC).testBit 1 = (devA.regs .IOC).testBit 1) :=
  set_voltage_independent 5 10 1 devA (by decide) (by decide) (by decide)

theorem spin_none (again : Nat → Bool) (reads : Nat → Nat)
    (h : ∀ k, again (reads k % 256) = true) :
    ∀ fuel k0, spin again reads fuel k0 = none := by
  intro fuel
  induction fuel with
  | zero => intro k0; rfl
  | succ f ih => intro k0; simp [spin, h k0, ih]

theorem spin_ends (again : Nat → Bool) (reads : Nat → Nat) :
    ∀ fuel k0 n, spin again reads fuel k0 = some n →
      ∃ k, again (reads k % 256) = false := by
  intro fuel
  induction fuel with
  | zero => intro k0 n h; simp [spin] at h
  | succ f ih =>
    intro k0 n h
    by_cases hk : again (reads k0 % 256) = true
    · simp only [spin, hk, if_true] at h
      exact ih _ _ h
    · exact ⟨k0, by simpa using hk⟩

theorem spin_iff (again : Nat → Bool) (reads : Nat → Nat) :
    (∃ fuel n, spin again reads fuel 0 = some n) ↔ ∃ k, again (reads k % 256) = false := by
  constructor
  · rintro ⟨fuel, n, h⟩
    exact spin_ends again reads fuel 0 n h
  · rintro ⟨k, hk⟩
    obtain ⟨n, hn⟩ := spin_some again reads k 0 (k + 1) (by simpa using hk) (by omega)
    exact ⟨k + 1, n, hn⟩

theorem handle_vendorcommand_valid_eq (env : Env) (fuel cmd : Nat) (s : Dev)
    (hr : cmd ≥ 0xe0 ∧ cmd ≤ 0xe4) :
    handle_vendorcommand env fuel cmd s =
      match spin (fun v => v &&& env.bmEPBUSY ≠ 0) env.EP0CS fuel 0 with
      | none => .stuck (prologue s)
      | some _ => vendor_switch env fuel cmd (prologue s) := by
  unfold handle_vendorcommand
  simp only [if_pos hr]
  rfl

theorem handle_vendorcommand_other_eq (env : Env) (fuel cmd : Nat) (s : Dev)
    (hr : ¬ (cmd ≥ 0xe0 ∧ cmd ≤ 0xe4)) :
    handle_vendorcommand env fuel cmd s = .ret false (led_red s) := by
  unfold handle_vendorcommand
  simp only [if_neg hr]
  have h1 : ¬ (cmd = 0xe0 ∨ cmd = 0xe1) := by omega
  have h2 : cmd ≠ 0xe2 := by omega
  have h3 : cmd ≠ 0xe3 := by omega
  have h4 : cmd ≠ 0xe4 := by omega
  simp only [vendor_switch, if_neg h1, if_neg h2, if_neg h3, if_neg h4]
  rfl

theorem start_sampling_ret_iff (env : Env) (s : Dev) :
    (∃ fuel s', start_sampling env fuel s = .ret () s') ↔
      ∃ k, env.GPIFTRIG k % 256 &&& 0x80 ≠ 0 := by
  constructor
  · rintro ⟨fuel, s', h⟩
    rw [start_sampling_eq] at h
    cases hs : spin (fun v => decide (v &&& 0x80 = 0)) env.GPIFTRIG fuel 0 with
    | none => rw [hs] at h; cases h
    | some n =>
      obtain ⟨k, hk⟩ := spin_ends _ _ fuel 0 n hs
      exact ⟨k, by simpa using hk⟩
  · rintro ⟨k, hk⟩
    exact ⟨k + 1, _, start_sampling_ready env s k (k + 1) hk (by omega)⟩

/-- What `vendor_switch` returns when the command is not a start request. -/
theorem vendor_switch_no_start (env : Env) (fuel cmd : Nat) (s : Dev)
    (hn : ¬ (cmd = 0xe3 ∧ env.EP0BUF0 % 256 = 1)) :
    ∃ b s', vendor_switch env fuel cmd s = .ret b s' := by
  unfold vendor_switch
  split_ifs with h1 h2 h3 h4 h5
  · exact ⟨_, _, rfl⟩
  · obtain ⟨b, s', hs⟩ := set_samplerate_ret (env.EP0BUF0 % 256) s
    exact ⟨true, s', by rw [hs]⟩
  · exact absurd ⟨h3, h4⟩ hn
  · exact ⟨_, _, rfl⟩
  · exact ⟨_, _, rfl⟩
  · exact ⟨_, _, rfl⟩

theorem vendor_switch_start (env : Env) (fuel cmd : Nat) (s : Dev)
    (hc : cmd = 0xe3 ∧ env.EP0BUF0 % 256 = 1) :
    vendor_switch env fuel cmd s =
      match start_sampling env fuel s with
      | .ret _ s => .ret true s
      | .stuck s => .stuck s := by
  obtain ⟨h3, hp⟩ := hc
  subst h3
  simp [vendor_switch, hp]

/-- C16, as the code has it: `set_samplerate` returns for every rate;
`start_sampling` returns exactly when `GPIFTRIG` shows bit 0x80 at some
poll; `handle_vendorcommand` returns at once for an opcode outside
`0xE0..0xE4`; for a valid opcode other than a start request it returns
exactly when `EP0CS` shows the busy flag clear at some poll; and for the
start request (`0xE3`, payload 1) exactly when both flags show. -/
theorem blocking_points (env : Env) (cmd : Nat) (s : Dev) :
    (∀ rate, ∃ b s', set_samplerate rate s = .ret b s') ∧
    ((∃ fuel s', start_sampling env fuel s = .ret () s') ↔
      ∃ k, env.GPIFTRIG k % 256 &&& 0x80 ≠ 0) ∧
    (¬ (0xe0 ≤ cmd ∧ cmd ≤ 0xe4) →
      ∀ fuel, ∃ s', handle_vendorcommand env fuel cmd s = .ret false s') ∧
    ((0xe0 ≤ cmd ∧ cmd ≤ 0xe4) → ¬ (cmd = 0xe3 ∧ env.EP0BUF0 % 256 = 1) →
      ((∃ fuel b s', handle_vendorcommand env fuel cmd s = .ret b s') ↔
        ∃ k, env.EP0CS k % 256 &&& env.bmEPBUSY = 0)) ∧
    ((cmd = 0xe3 ∧ env.EP0BUF0 % 256 = 1) →
      ((∃ fuel b s', handle_vendorcommand env fuel cmd s = .ret b s') ↔
        (∃ k, env.EP0CS k % 256 &&& env.bmEPBUSY = 0) ∧
        ∃ k, env.GPIFTRIG k % 256 &&& 0x80 ≠ 0)) := by
  refine ⟨fun rate => set_samplerate_ret rate s, start_sampling_ret_iff env s, ?_, ?_, ?_⟩
  · intro hr fuel
    exact ⟨_, handle_vendorcommand_other_eq env fuel cmd s (by omega)⟩
  · intro hr hn
    constructor
    · rintro ⟨fuel, b, s', h⟩
      rw [handle_vendorcommand_valid_eq env fuel cmd s (by omega)] at h
      cases hs : spin (fun v => decide (v &&& env.bmEPBUSY ≠ 0)) env.EP0CS fuel 0 with
      | none => rw [hs] at h; cases h
      | some n =>
        obtain ⟨k, hk⟩ := spin_ends _ _ fuel 0 n hs
        exact ⟨k, by simpa using hk⟩
    · rintro ⟨k, hk⟩
      obtain ⟨n, hs⟩ := spin_some (fun v => decide (v &&& env.bmEPBUSY ≠ 0)) env.EP0CS k 0
        (k + 1) (by simpa using hk) (by omega)
      obtain ⟨b, s', hv⟩ := vendor_switch_no_start env (k + 1) cmd (prologue s) hn
      refine ⟨k + 1, b, s', ?_⟩
      rw [handle_vendorcommand_valid_eq env (k + 1) cmd s (by omega), hs]
      exact hv
  · intro hc
    have hr : cmd ≥ 0xe0 ∧ cmd ≤ 0xe4 := by omega
    constructor
    · rintro ⟨fuel, b, s', h⟩
      rw [handle_vendorcommand_valid_eq env fuel cmd s hr] at h
      cases hs : spin (fun v => decide (v &&& env.bmEPBUSY ≠ 0)) env.EP0CS fuel 0 with
      | none => rw [hs] at h; cases h
      | some n =>
        rw [hs] at h
        simp only [vendor_switch_start env fuel cmd _ hc] at h
        obtain ⟨k, hk⟩ := spin_ends _ _ fuel 0 n hs
        refine ⟨⟨k, by simpa using hk⟩, (start_sampling_ret_iff env (prologue s)).1 ?_⟩
        cases hst : start_sampling env fuel (prologue s) with
        | ret u t => exact ⟨fuel, t, hst⟩
        | stuck t => rw [hst] at h; cases h
    · rintro ⟨⟨k1, h1⟩, ⟨k2, h2⟩⟩
      obtain ⟨n, hs⟩ := spin_some (fun v => decide (v &&& env.bmEPBUSY ≠ 0)) env.EP0CS k1 0
        (k1 + k2 + 1) (by simpa using h1) (by omega)
      refine ⟨k1 + k2 + 1, true, armed (prologue s), ?_⟩
      rw [handle_vendorcommand_valid_eq env _ cmd s hr, hs]
      simp only [vendor_switch_start env _ cmd _ hc,
        start_sampling_ready env (prologue s) k2 (k1 + k2 + 1) h2 (by omega)]

/-- C16 fails as stated: with endpoint 0 busy at every poll,
`handle_vendorcommand(0xE0)` with payload 1 never returns, although the
sequencer is ready throughout. -/
theorem handle_vendorcommand_blocks :
    ¬ ∃ fuel b s', handle_vendorcommand envBusy fuel 0xe0 dev0 = .ret b s' := by
  rintro ⟨fuel, b, s', h⟩
  rw [handle_vendorcommand_valid_eq envBusy fuel 0xe0 dev0 (by decide),
    spin_none _ _ (fun _ => (by decide : decide ((0x02 : Nat) % 256 &&& 0x02 ≠ 0) = true))
      fuel 0] at h
  cases h

theorem quiet_nil : Quiet [] := by
  intro w hw
  cases hw

theorem quiet_append (a b : List (Reg × Nat)) (ha : Quiet a) (hb : Quiet b) :
    Quiet (a ++ b) := by
  intro w hw
  rcases List.mem_append.1 hw with h | h
  · exact ha w h
  · exact hb w h

theorem quiet_program (vs : List Nat) :
    Quiet (vs.map (fun v => (Reg.EXTAUTODAT2, v))) := by
  intro w hw
  obtain ⟨v, _, rfl⟩ := List.mem_map.1 hw
  simp

theorem led_red_log (s : Dev) :
    (led_red s).log = s.log ++
      [(.GPIFABORT, 0xff), (.INPKTEND, if s.altiface = 0 then 6 else 2), (.PC0, 0),
       (.PC1, 1)] := by
  simp [led_red, stop_sampling_log]

theorem prologue_log (s : Dev) :
    (prologue s).log = s.log ++
      [(.GPIFABORT, 0xff), (.INPKTEND, if s.altiface = 0 then 6 else 2), (.PC0, 0),
       (.PC1, 1), (.EP0BCH, 0), (.EP0BCL, 0)] := by
  simp [prologue, led_red_log]

theorem prologue_altiface (s : Dev) : (prologue s).altiface = s.altiface := rfl

theorem prologue_regs (s : Dev) (r : Reg) (h1 : r ≠ .GPIFABORT) (h2 : r ≠ .INPKTEND)
    (h3 : r ≠ .PC0) (h4 : r ≠ .PC1) (h5 : r ≠ .EP0BCH) (h6 : r ≠ .EP0BCL) :
    (prologue s).regs r = s.regs r := by
  simp [prologue, led_red, stop_sampling, Function.update_apply, h1, h2, h3, h4, h5, h6]

theorem quiet_led (x : Nat) :
    Quiet [(.GPIFABORT, 0xff), (.INPKTEND, x), (.PC0, 0), (.PC1, 1)] := by
  intro w hw
  simp only [List.mem_cons, List.mem_singleton, List.not_mem_nil, or_false] at hw
  rcases hw with h | h | h | h <;> subst h <;> simp

theorem quiet_prologue (x : Nat) :
    Quiet [(.GPIFABORT, 0xff), (.INPKTEND, x), (.PC0, 0), (.PC1, 1), (.EP0BCH, 0),
      (.EP0BCL, 0)] := by
  intro w hw
  simp only [List.mem_cons, List.mem_singleton, List.not_mem_nil, or_false] at hw
  rcases hw with h | h | h | h | h | h <;> subst h <;> simp

theorem load_program_quiet (row : samplerate_info) (s : Dev) :
    ∃ rest, (load_program row s).log = s.log ++ rest ∧ Quiet rest := by
  refine ⟨[(Reg.IFCONFIG, row.ifcfg % 256), (Reg.AUTOPTRSETUP, 7), (Reg.AUTOPTRH2, 0xE4),
      (Reg.AUTOPTRL2, 0)] ++
      ([row.wait0 % 256, row.wait1 % 256, 1, 0, 0, 0, 0, 0,
        row.opc0 % 256, row.opc1 % 256, 1, 0, 0, 0, 0, 0,
        row.out0 % 256, 0x44, 0x44, 0, 0, 0, 0, 0] ++ List.replicate 104 0).map
        (fun v => (Reg.EXTAUTODAT2, v)), ?_, quiet_append _ _ ?_ (quiet_program _)⟩
  · rw [load_program_log, List.append_assoc]
  · intro w hw
    simp only [List.mem_cons, List.mem_singleton, List.not_mem_nil, or_false] at hw
    rcases hw with h | h | h | h <;> subst h <;> simp

theorem vendor_switch_quiet (env : Env) (fuel cmd : Nat) (s : Dev)
    (hn : ¬ (cmd = 0xe3 ∧ env.EP0BUF0 % 256 = 1)) :
    ∃ rest, (vendor_switch env fuel cmd s).state.log = s.log ++ rest ∧ Quiet rest := by
  unfold vendor_switch
  split_ifs with h1 h2 h3 h4 h5
  · by_cases hv : env.EP0BUF0 % 256 = 1 ∨ env.EP0BUF0 % 256 = 2 ∨ env.EP0BUF0 % 256 = 5 ∨
        env.EP0BUF0 % 256 = 10
    · rw [set_voltage_eq_of_valid _ _ s hv]
      refine ⟨_, rfl, ?_⟩
      intro w hw
      rw [List.mem_singleton] at hw
      subst hw
      simp
    · have hn : env.EP0BUF0 % 256 ≠ 1 ∧ env.EP0BUF0 % 256 ≠ 2 ∧ env.EP0BUF0 % 256 ≠ 5 ∧
          env.EP0BUF0 % 256 ≠ 10 := by
        refine ⟨fun h => hv ?_, fun h => hv ?_, fun h => hv ?_, fun h => hv ?_⟩ <;> simp [h]
      refine ⟨[], ?_, quiet_nil⟩
      simp [set_voltage, hn.1, hn.2.1, hn.2.2.1, hn.2.2.2, Run.state]
  · by_cases h : env.EP0BUF0 % 256 ∈ [1, 2, 4, 8, 10, 12, 16, 20, 24, 30, 48, 50]
    · obtain ⟨row, _, _, hs⟩ := set_samplerate_ok _ s h
      rw [hs]
      exact load_program_quiet row s
    · rw [set_samplerate_reject _ s h]
      exact ⟨[], by simp [Run.state], quiet_nil⟩
  · exact absurd ⟨h3, h4⟩ hn
  · exact ⟨[], by simp [Run.state], quiet_nil⟩
  · unfold set_numchannels
    split_ifs
    · refine ⟨_, by simp only [Run.state, write_log, List.append_assoc]; rfl, ?_⟩
      intro w hw
      simp only [List.singleton_append, List.mem_cons, List.mem_singleton, List.not_mem_nil,
        or_false] at hw
      rcases hw with h | h <;> subst h <;> simp
    · exact ⟨[], by simp [Run.state], quiet_nil⟩
  · exact ⟨[], by simp [Run.state], quiet_nil⟩

theorem handle_vendorcommand_finish (env : Env) (fuel cmd k : Nat) (s : Dev)
    (hr : cmd ≥ 0xe0 ∧ cmd ≤ 0xe4)
    (hk : env.EP0CS k % 256 &&& env.bmEPBUSY = 0) (hf : k < fuel) :
    handle_vendorcommand env fuel cmd s = vendor_switch env fuel cmd (prologue s) := by
  obtain ⟨n, hs⟩ := spin_some (fun v => decide (v &&& env.bmEPBUSY ≠ 0)) env.EP0CS k 0 fuel
    (by simpa using hk) hf
  rw [handle_vendorcommand_valid_eq env fuel cmd s hr, hs]

/-- C15: unless the command is `0xE3` with payload byte 1,
`handle_vendorcommand` writes none of `FIFORESET`, `GPIFTCB1`, `GPIFTCB0`,
`GPIFTRIG`, for any fuel and whether or not it returns; for `0xE3` with
payload 1, once both hardware flags show, it returns TRUE after the stop
sequence, the LED and byte-count writes and the whole `start_sampling`
sequence: FIFO reset, byte counters, trigger. -/
theorem handle_vendorcommand_arms (env : Env) (cmd : Nat) (s : Dev) :
    (¬ (cmd = 0xe3 ∧ env.EP0BUF0 % 256 = 1) → ∀ fuel,
      ∃ rest, (handle_vendorcommand env fuel cmd s).state.log = s.log ++ rest ∧
        ∀ w ∈ rest, w.1 ≠ .FIFORESET ∧ w.1 ≠ .GPIFTCB1 ∧ w.1 ≠ .GPIFTCB0 ∧
          w.1 ≠ .GPIFTRIG) ∧
    ((cmd = 0xe3 ∧ env.EP0BUF0 % 256 = 1) →
      (∃ k, env.EP0CS k % 256 &&& env.bmEPBUSY = 0) →
      (∃ k, env.GPIFTRIG k % 256 &&& 0x80 ≠ 0) →
      ∃ fuel0, ∀ fuel, fuel0 ≤ fuel →
        ∃ s', handle_vendorcommand env fuel cmd s = .ret true s' ∧
          s'.log = s.log ++
            [(.GPIFABORT, 0xff), (.INPKTEND, if s.altiface = 0 then 6 else 2), (.PC0, 0),
             (.PC1, 1), (.EP0BCH, 0), (.EP0BCL, 0)] ++
            [(.GPIFABORT, 0xff), (.FIFORESET, 0x80), (.FIFORESET, 0x82), (.FIFORESET, 0x86),
             (.FIFORESET, 0), (.GPIFTCB1, 0x28), (.GPIFTCB0, 0),
             (.GPIFTRIG, if s.altiface = 0 then 6 else 4), (.PC0, 1), (.PC1, 0)]) := by
  constructor
  · intro hn fuel
    by_cases hr : cmd ≥ 0xe0 ∧ cmd ≤ 0xe4
    · rw [handle_vendorcommand_valid_eq env fuel cmd s hr]
      cases spin (fun v => decide (v &&& env.bmEPBUSY ≠ 0)) env.EP0CS fuel 0 with
      | none => exact ⟨_, prologue_log s, quiet_prologue _⟩
      | some n =>
        obtain ⟨rest, hl, hq⟩ := vendor_switch_quiet env fuel cmd (prologue s) hn
        refine ⟨[(.GPIFABORT, 0xff), (.INPKTEND, if s.altiface = 0 then 6 else 2), (.PC0, 0),
          (.PC1, 1), (.EP0BCH, 0), (.EP0BCL, 0)] ++ rest, ?_,
          quiet_append _ _ (quiet_prologue _) hq⟩
        show (vendor_switch env fuel cmd (prologue s)).state.log = _
        rw [hl, prologue_log, List.append_assoc]
    · rw [handle_vendorcommand_other_eq env fuel cmd s hr]
      exact ⟨_, led_red_log s, quiet_led _⟩
  · rintro hc ⟨k1, h1⟩ ⟨k2, h2⟩
    refine ⟨k1 + k2 + 1, fun fuel hf => ⟨armed (prologue s), ?_, ?_⟩⟩
    · rw [handle_vendorcommand_finish env fuel cmd k1 s (by omega) h1 (by omega),
        vendor_switch_start env fuel cmd _ hc,
        start_sampling_ready env (prologue s) k2 fuel h2 (by omega)]
    · rw [armed_log, prologue_log, prologue_altiface]

/-- Instance of C15: the start request on a bus that is busy for three
polls. -/
theorem handle_vendorcommand_arms_witness :
    ∃ fuel0, ∀ fuel, fuel0 ≤ fuel →
      ∃ s', handle_vendorcommand env1 fuel 0xe3 devA = .ret true s' ∧
        s'.log = devA.log ++
          [(.GPIFABORT, 0xff), (.INPKTEND, if devA.altiface = 0 then 6 else 2), (.PC0, 0),
           (.PC1, 1), (.EP0BCH, 0), (.EP0BCL, 0)] ++
          [(.GPIFABORT, 0xff), (.FIFORESET, 0x80), (.FIFORESET, 0x82), (.FIFORESET, 0x86),
           (.FIFORESET, 0), (.GPIFTCB1, 0x28), (.GPIFTCB0, 0),
           (.GPIFTRIG, if devA.altiface = 0 then 6 else 4), (.PC0, 1), (.PC1, 0)] :=
  (handle_vendorcommand_arms env1 0xe3 devA).2 ⟨rfl, by decide⟩ ⟨3, by decide⟩ ⟨1, by decide⟩

theorem and_or_mod (x m k : Nat) :
    ((x &&& m) ||| k) % 256 = (((x % 256) &&& m) ||| k) % 256 := by
  apply Nat.eq_of_testBit_eq
  intro i
  rw [show (256 : Nat) = 2 ^ 8 by rfl]
  simp only [Nat.testBit_mod_two_pow, Nat.testBit_or, Nat.testBit_and]
  by_cases h : i < 8 <;> simp [h]

theorem ioc_rmw_mod (c bits x : Nat) : ioc_rmw c bits x = ioc_rmw c bits (x % 256) := by
  unfold ioc_rmw
  exact and_or_mod _ _ _

set_option maxRecDepth 100000 in
theorem ioc_rmw_scenario : ∀ x < 256,
    ioc_rmw 1 (0x24 * 3) (ioc_rmw 0 (0x24 * 0) x) < 256 ∧
    (ioc_rmw 1 (0x24 * 3) (ioc_rmw 0 (0x24 * 0) x) &&& 0x1c) >>> 2 = 0 ∧
    (ioc_rmw 1 (0x24 * 3) (ioc_rmw 0 (0x24 * 0) x) &&& 0xe0) >>> 5 = 3 := by
  decide

set_option maxRecDepth 100000 in
theorem ioc_rmw_defaults : ∀ x < 256,
    ioc_rmw 1 (0x24 * 2) (ioc_rmw 0 (0x24 * 2) x) < 256 ∧
    ioc_rmw 1 (0x24 * 2) (ioc_rmw 0 (0x24 * 2) x) &&& 0xFC = 0x48 := by
  decide

theorem ioc_rmw_byte (c bits x : Nat) : ioc_rmw c bits x < 256 :=
  Nat.mod_lt _ (by decide)

theorem vendor_switch_voltage (env : Env) (fuel cmd : Nat) (s : Dev)
    (hc : cmd = 0xe0 ∨ cmd = 0xe1) :
    vendor_switch env fuel cmd s =
      .ret true (set_voltage ((cmd - 0xe0) % 256) (env.EP0BUF0 % 256) s).2 := by
  simp [vendor_switch, hc]

theorem vendor_switch_rate (env : Env) (fuel : Nat) (s : Dev) :
    vendor_switch env fuel 0xe2 s =
      match set_samplerate (env.EP0BUF0 % 256) s with
      | .ret _ s => .ret true s
      | .stuck s => .stuck s := by
  simp [vendor_switch]

theorem vendor_switch_channels (env : Env) (fuel : Nat) (s : Dev) :
    vendor_switch env fuel 0xe4 s =
      .ret true (set_numchannels (env.EP0BUF0 % 256) s).2 := by
  simp [vendor_switch]

theorem armed_regs (s : Dev) (r : Reg) (h1 : r ≠ .GPIFABORT) (h2 : r ≠ .FIFORESET)
    (h3 : r ≠ .GPIFTCB1) (h4 : r ≠ .GPIFTCB0) (h5 : r ≠ .GPIFTRIG) (h6 : r ≠ .PC0)
    (h7 : r ≠ .PC1) : (armed s).regs r = s.regs r := by
  simp [armed, clear_fifo, Function.update_apply, h1, h2, h3, h4, h5, h6, h7]

theorem armed_altiface (s : Dev) : (armed s).altiface = s.altiface := rfl

theorem load_program_regs (row : samplerate_info) (s : Dev) (r : Reg) (h1 : r ≠ .IFCONFIG)
    (h2 : r ≠ .AUTOPTRSETUP) (h3 : r ≠ .AUTOPTRH2) (h4 : r ≠ .AUTOPTRL2)
    (h5 : r ≠ .EXTAUTODAT2) : (load_program row s).regs r = s.regs r := by
  simp only [load_program]
  rw [zero_fill_regs _ _ _ h5, writeAll_regs _ _ _ _ h5, writeAll_regs _ _ _ _ h5,
    writeAll_regs _ _ _ _ h5, writeAll_regs _ _ _ _ h5]
  simp [Function.update_apply, h1, h2, h3, h4]

theorem load_program_altiface (row : samplerate_info) (s : Dev) :
    (load_program row s).altiface = s.altiface := by
  simp only [load_program]
  rw [(zero_fill_vars _ _).1, (writeAll_vars _ _ _).1, (writeAll_vars _ _ _).1,
    (writeAll_vars _ _ _).1, (writeAll_vars _ _ _).1]
  rfl

/-- Effect of the channel-count command with payload 2. -/
theorem command_channels (e : Env) (fuel k : Nat) (s : Dev) (p : e.EP0BUF0 % 256 = 2)
    (w : e.EP0CS k % 256 &&& e.bmEPBUSY = 0) (hf : k < fuel) :
    ∃ t, handle_vendorcommand e fuel 0xe4 s = .ret true t ∧
      t.log = (prologue s).log ++ [(.EP2FIFOCFG, 9), (.EP6FIFOCFG, 9)] ∧
      t.altiface = s.altiface ∧ t.regs .EP2FIFOCFG = 9 ∧ t.regs .EP6FIFOCFG = 9 ∧
      t.regs .IOC = s.regs .IOC := by
  refine ⟨(set_numchannels 2 (prologue s)).2, ?_, ?_, rfl, ?_, ?_, ?_⟩
  · rw [handle_vendorcommand_finish e fuel 0xe4 k s (by decide) w hf,
      vendor_switch_channels, p]
  · simp [set_numchannels]
  · simp [set_numchannels, Function.update_apply]
  · simp [set_numchannels, Function.update_apply]
  · simp [set_numchannels, Function.update_apply]
    exact prologue_regs s .IOC (by decide) (by decide) (by decide) (by decide) (by decide)
      (by decide)

/-- Effect of a voltage command with a valid range code. -/
theorem command_voltage (e : Env) (fuel k cmd : Nat) (s : Dev)
    (hc : cmd = 0xe0 ∨ cmd = 0xe1)
    (p : e.EP0BUF0 % 256 = 1 ∨ e.EP0BUF0 % 256 = 2 ∨ e.EP0BUF0 % 256 = 5 ∨
      e.EP0BUF0 % 256 = 10)
    (w : e.EP0CS k % 256 &&& e.bmEPBUSY = 0) (hf : k < fuel) :
    ∃ t, handle_vendorcommand e fuel cmd s = .ret true t ∧
      t.log = (prologue s).log ++
        [(.IOC, ioc_rmw (cmd - 0xe0) (0x24 * spec_selector (e.EP0BUF0 % 256))
          (s.regs .IOC))] ∧
      t.altiface = s.altiface ∧
      t.regs .IOC = ioc_rmw (cmd - 0xe0) (0x24 * spec_selector (e.EP0BUF0 % 256))
          (s.regs .IOC) ∧
      t.regs .EP2FIFOCFG = s.regs .EP2FIFOCFG ∧ t.regs .EP6FIFOCFG = s.regs .EP6FIFOCFG ∧
      t.regs .IFCONFIG = s.regs .IFCONFIG := by
  have hm : (cmd - 0xe0) % 256 = cmd - 0xe0 := by omega
  have hI : (prologue s).regs .IOC = s.regs .IOC :=
    prologue_regs s .IOC (by decide) (by decide) (by decide) (by decide) (by decide)
      (by decide)
  refine ⟨write .IOC (ioc_rmw (cmd - 0xe0) (0x24 * spec_selector (e.EP0BUF0 % 256))
    (s.regs .IOC)) (prologue s), ?_, ?_, ?_, ?_, ?_, ?_, ?_⟩
  · rw [handle_vendorcommand_finish e fuel cmd k s (by omega) w hf,
      vendor_switch_voltage e fuel cmd _ hc, set_voltage_eq_of_valid _ _ _ p, hm, hI]
  · simp [Nat.mod_eq_of_lt (ioc_rmw_byte _ _ _)]
  · rfl
  · simp [Nat.mod_eq_of_lt (ioc_rmw_byte _ _ _)]
  · simp [Function.update_apply]
    exact prologue_regs s _ (by decide) (by decide) (by decide) (by decide) (by decide)
      (by decide)
  · simp [Function.update_apply]
    exact prologue_regs s _ (by decide) (by decide) (by decide) (by decide) (by decide)
      (by decide)
  · simp [Function.update_apply]
    exact prologue_regs s _ (by decide) (by decide) (by decide) (by decide) (by decide)
      (by decide)

/-- Effect of the sample-rate command with payload 24. -/
theorem command_rate24 (e : Env) (fuel k : Nat) (s : Dev) (p : e.EP0BUF0 % 256 = 24)
    (w : e.EP0CS k % 256 &&& e.bmEPBUSY = 0) (hf : k < fuel) :
    ∃ t, handle_vendorcommand e fuel 0xe2 s = .ret true t ∧
      t.log = (prologue s).log ++
        [(.IFCONFIG, 0xCA), (.AUTOPTRSETUP, 7), (.AUTOPTRH2, 0xE4), (.AUTOPTRL2, 0)] ++
        ([1, 0, 1, 0, 0, 0, 0, 0] ++ [2, 1, 1, 0, 0, 0, 0, 0] ++
         [0x40, 0x44, 0x44, 0, 0, 0, 0, 0] ++ List.replicate 104 0).map
           (fun v => (Reg.EXTAUTODAT2, v)) ∧
      t.altiface = s.altiface ∧ t.regs .IFCONFIG = 0xCA ∧
      t.regs .IOC = s.regs .IOC ∧
      t.regs .EP2FIFOCFG = s.regs .EP2FIFOCFG ∧ t.regs .EP6FIFOCFG = s.regs .EP6FIFOCFG := by
  have hs : set_samplerate 24 (prologue s) =
      .ret true (load_program ⟨24, 1, 0, 2, 1, 0x40, 0xca⟩ (prologue s)) := by
    rw [set_samplerate_eq]
    rfl
  refine ⟨load_program ⟨24, 1, 0, 2, 1, 0x40, 0xca⟩ (prologue s), ?_, ?_, ?_, ?_, ?_, ?_, ?_⟩
  · rw [handle_vendorcommand_finish e fuel 0xe2 k s (by decide) w hf, vendor_switch_rate, p,
      hs]
  · rw [load_program_log]
    rfl
  · rw [load_program_altiface]
    rfl
  · rw [load_program_ifconfig]
    rfl
  · rw [load_program_regs _ _ _ (by decide) (by decide) (by decide) (by decide) (by decide)]
    exact prologue_regs s _ (by decide) (by decide) (by decide) (by decide) (by decide)
      (by decide)
  · rw [load_program_regs _ _ _ (by decide) (by decide) (by decide) (by decide) (by decide)]
    exact prologue_regs s _ (by decide) (by decide) (by decide) (by decide) (by decide)
      (by decide)
  · rw [load_program_regs _ _ _ (by decide) (by decide) (by decide) (by decide) (by decide)]
    exact prologue_regs s _ (by decide) (by decide) (by decide) (by decide) (by decide)
      (by decide)

/-- Effect of the start command with payload 1 once the sequencer is ready. -/
theorem command_start (e : Env) (fuel k k2 : Nat) (s : Dev) (p : e.EP0BUF0 % 256 = 1)
    (w : e.EP0CS k % 256 &&& e.bmEPBUSY = 0) (hf : k < fuel)
    (t : e.GPIFTRIG k2 % 256 &&& 0x80 ≠ 0) (hf2 : k2 < fuel) :
    handle_vendorcommand e fuel 0xe3 s = .ret true (armed (prologue s)) ∧
      (armed (prologue s)).regs .IOC = s.regs .IOC ∧
      (armed (prologue s)).regs .IFCONFIG = s.regs .IFCONFIG ∧
      (armed (prologue s)).regs .EP2FIFOCFG = s.regs .EP2FIFOCFG ∧
      (armed (prologue s)).regs .EP6FIFOCFG = s.regs .EP6FIFOCFG := by
  refine ⟨?_, ?_, ?_, ?_, ?_⟩
  · rw [handle_vendorcommand_finish e fuel 0xe3 k s (by decide) w hf,
      vendor_switch_start e fuel 0xe3 _ ⟨rfl, p⟩, start_sampling_ready e _ k2 fuel t hf2]
  all_goals
    rw [armed_regs _ _ (by decide) (by decide) (by decide) (by decide) (by decide)
      (by decide) (by decide)]
    exact prologue_regs s _ (by decide) (by decide) (by decide) (by decide) (by decide)
      (by decide)

/-- C14: when every endpoint-0 wait ends and the sequencer becomes ready,
the commands `0xE4` (payload 2), `0xE0` (5), `0xE1` (10), `0xE2` (24), `0xE3`
(1) all return TRUE and leave `EP2FIFOCFG = EP6FIFOCFG = 9`, the field of
channel 0 (mask 0x1c) at the selector of range 5, the field of channel 1
(mask 0xe0) at the selector of range 10, `IFCONFIG = 0xCA`; the trace is, in
order, the two FIFO configuration writes, the two `IOC` writes, the rate-24
waveform bytes, the FIFO reset `0x80, 0x82, 0x86, 0` and the `GPIFTRIG`
write, each command preceded by its stop, LED and byte-count writes. -/
theorem vendor_scenario (e1 e2 e3 e4 e5 : Env) (s : Dev)
    (p1 : e1.EP0BUF0 % 256 = 2) (p2 : e2.EP0BUF0 % 256 = 5) (p3 : e3.EP0BUF0 % 256 = 10)
    (p4 : e4.EP0BUF0 % 256 = 24) (p5 : e5.EP0BUF0 % 256 = 1)
    (w1 : ∃ k, e1.EP0CS k % 256 &&& e1.bmEPBUSY = 0)
    (w2 : ∃ k, e2.EP0CS k % 256 &&& e2.bmEPBUSY = 0)
    (w3 : ∃ k, e3.EP0CS k % 256 &&& e3.bmEPBUSY = 0)
    (w4 : ∃ k, e4.EP0CS k % 256 &&& e4.bmEPBUSY = 0)
    (w5 : ∃ k, e5.EP0CS k % 256 &&& e5.bmEPBUSY = 0)
    (t5 : ∃ k, e5.GPIFTRIG k % 256 &&& 0x80 ≠ 0) :
    ∃ fuel0, ∀ fuel, fuel0 ≤ fuel →
      ∃ (s1 s2 s3 s4 s5 : Dev),
        handle_vendorcommand e1 fuel 0xe4 s = .ret true s1 ∧
        handle_vendorcommand e2 fuel 0xe0 s1 = .ret true s2 ∧
        handle_vendorcommand e3 fuel 0xe1 s2 = .ret true s3 ∧
        handle_vendorcommand e4 fuel 0xe2 s3 = .ret true s4 ∧
        handle_vendorcommand e5 fuel 0xe3 s4 = .ret true s5 ∧
        s5.regs .EP2FIFOCFG = 9 ∧ s5.regs .EP6FIFOCFG = 9 ∧
        (s5.regs .IOC &&& 0x1c) >>> 2 = spec_selector 5 ∧
        (s5.regs .IOC &&& 0xe0) >>> 5 = spec_selector 10 ∧
        s5.regs .IFCONFIG = 0xCA ∧
        s5.log = s.log ++
          [(.GPIFABORT, 0xff), (.INPKTEND, if s.altiface = 0 then 6 else 2), (.PC0, 0),
           (.PC1, 1), (.EP0BCH, 0), (.EP0BCL, 0)] ++
          [(.EP2FIFOCFG, 9), (.EP6FIFOCFG, 9)] ++
          [(.GPIFABORT, 0xff), (.INPKTEND, if s.altiface = 0 then 6 else 2), (.PC0, 0),
           (.PC1, 1), (.EP0BCH, 0), (.EP0BCL, 0)] ++
          [(.IOC, s2.regs .IOC)] ++
          [(.GPIFABORT, 0xff), (.INPKTEND, if s.altiface = 0 then 6 else 2), (.PC0, 0),
           (.PC1, 1), (.EP0BCH, 0), (.EP0BCL, 0)] ++
          [(.IOC, s3.regs .IOC)] ++
          [(.GPIFABORT, 0xff), (.INPKTEND, if s.altiface = 0 then 6 else 2), (.PC0, 0),
           (.PC1, 1), (.EP0BCH, 0), (.EP0BCL, 0)] ++
          [(.IFCONFIG, 0xCA), (.AUTOPTRSETUP, 7), (.AUTOPTRH2, 0xE4), (.AUTOPTRL2, 0)] ++
          ([1, 0, 1, 0, 0, 0, 0, 0] ++ [2, 1, 1, 0, 0, 0, 0, 0] ++
           [0x40, 0x44, 0x44, 0, 0, 0, 0, 0] ++ List.replicate 104 0).map
             (fun v => (Reg.EXTAUTODAT2, v)) ++
          [(.GPIFABORT, 0xff), (.INPKTEND, if s.altiface = 0 then 6 else 2), (.PC0, 0),
           (.PC1, 1), (.EP0BCH, 0), (.EP0BCL, 0)] ++
          [(.GPIFABORT, 0xff), (.FIFORESET, 0x80), (.FIFORESET, 0x82), (.FIFORESET, 0x86),
           (.FIFORESET, 0), (.GPIFTCB1, 0x28), (.GPIFTCB0, 0),
           (.GPIFTRIG, if s.altiface = 0 then 6 else 4), (.PC0, 1), (.PC1, 0)] := by
  obtain ⟨k1, w1⟩ := w1
  obtain ⟨k2, w2⟩ := w2
  obtain ⟨k3, w3⟩ := w3
  obtain ⟨k4, w4⟩ := w4
  obtain ⟨k5, w5⟩ := w5
  obtain ⟨k6, t5⟩ := t5
  refine ⟨k1 + k2 + k3 + k4 + k5 + k6 + 1, fun fuel hf => ?_⟩
  obtain ⟨s1, r1, l1, a1, c1, d1, i1⟩ := command_channels e1 fuel k1 s p1 w1 (by omega)
  obtain ⟨s2, r2, l2, a2, i2, c2, d2, f2⟩ := command_voltage e2 fuel k2 0xe0 s1 (Or.inl rfl)
    (Or.inr (Or.inr (Or.inl p2))) w2 (by omega)
  obtain ⟨s3, r3, l3, a3, i3, c3, d3, f3⟩ := command_voltage e3 fuel k3 0xe1 s2 (Or.inr rfl)
    (Or.inr (Or.inr (Or.inr p3))) w3 (by omega)
  obtain ⟨s4, r4, l4, a4, f4, i4, c4, d4⟩ := command_rate24 e4 fuel k4 s3 p4 w4 (by omega)
  obtain ⟨r5, i5, f5, c5, d5⟩ := command_start e5 fuel k5 k6 s4 p5 w5 (by omega) t5 (by omega)
  rw [p2] at l2 i2
  rw [p3] at l3 i3
  have hv : s3.regs .IOC =
      ioc_rmw 1 (0x24 * 3) (ioc_rmw 0 (0x24 * 0) (s.regs .IOC % 256)) := by
    rw [i3, i2, i1, ioc_rmw_mod 0 _ (s.regs .IOC)]
    rfl
  obtain ⟨_, g0, g1⟩ := ioc_rmw_scenario (s.regs .IOC % 256) (Nat.mod_lt _ (by decide))
  refine ⟨s1, s2, s3, s4, armed (prologue s4),
    r1, r2, r3, r4, r5, ?_, ?_, ?_, ?_, ?_, ?_⟩
  · rw [c5, c4, c3, c2, c1]
  · rw [d5, d4, d3, d2, d1]
  · rw [i5, i4, hv]
    exact g0
  · rw [i5, i4, hv]
    exact g1
  · rw [f5, f4]
  · rw [armed_log, prologue_log, prologue_altiface, l4, prologue_log, l3, prologue_log, l2,
      prologue_log, l1, prologue_log, a4, a3, a2, a1, ← i2, ← i3]

/-- Instance of C14: the five commands on a bus that is busy for three polls,
the sequencer ready at the second poll, from the isochronous alt setting. -/
theorem vendor_scenario_witness :
    ∃ fuel0, ∀ fuel, fuel0 ≤ fuel →
      ∃ (s1 s2 s3 s4 s5 : Dev),
        handle_vendorcommand (envP 2) fuel 0xe4 devA = .ret true s1 ∧
        handle_vendorcommand (envP 5) fuel 0xe0 s1 = .ret true s2 ∧
        handle_vendorcommand (envP 10) fuel 0xe1 s2 = .ret true s3 ∧
        handle_vendorcommand (envP 24) fuel 0xe2 s3 = .ret true s4 ∧
        handle_vendorcommand (envP 1) fuel 0xe3 s4 = .ret true s5 ∧
        s5.regs .EP2FIFOCFG = 9 ∧ s5.regs .EP6FIFOCFG = 9 ∧
        (s5.regs .IOC &&& 0x1c) >>> 2 = spec_selector 5 ∧
        (s5.regs .IOC &&& 0xe0) >>> 5 = spec_selector 10 ∧
        s5.regs .IFCONFIG = 0xCA ∧
        s5.log = devA.log ++
          [(.GPIFABORT, 0xff), (.INPKTEND, if devA.altiface = 0 then 6 else 2), (.PC0, 0),
           (.PC1, 1), (.EP0BCH, 0), (.EP0BCL, 0)] ++
          [(.EP2FIFOCFG, 9), (.EP6FIFOCFG, 9)] ++
          [(.GPIFABORT, 0xff), (.INPKTEND, if devA.altiface = 0 then 6 else 2), (.PC0, 0),
           (.PC1, 1), (.EP0BCH, 0), (.EP0BCL, 0)] ++
          [(.IOC, s2.regs .IOC)] ++
          [(.GPIFABORT, 0xff), (.INPKTEND, if devA.altiface = 0 then 6 else 2), (.PC0, 0),
           (.PC1, 1), (.EP0BCH, 0), (.EP0BCL, 0)] ++
          [(.IOC, s3.regs .IOC)] ++
          [(.GPIFABORT, 0xff), (.INPKTEND, if devA.altiface = 0 then 6 else 2), (.PC0, 0),
           (.PC1, 1), (.EP0BCH, 0), (.EP0BCL, 0)] ++
          [(.IFCONFIG, 0xCA), (.AUTOPTRSETUP, 7), (.AUTOPTRH2, 0xE4), (.AUTOPTRL2, 0)] ++
          ([1, 0, 1, 0, 0, 0, 0, 0] ++ [2, 1, 1, 0, 0, 0, 0, 0] ++
           [0x40, 0x44, 0x44, 0, 0, 0, 0, 0] ++ List.replicate 104 0).map
             (fun v => (Reg.EXTAUTODAT2, v)) ++
          [(.GPIFABORT, 0xff), (.INPKTEND, if devA.altiface = 0 then 6 else 2), (.PC0, 0),
           (.PC1, 1), (.EP0BCH, 0), (.EP0BCL, 0)] ++
          [(.GPIFABORT, 0xff), (.FIFORESET, 0x80), (.FIFORESET, 0x82), (.FIFORESET, 0x86),
           (.FIFORESET, 0), (.GPIFTCB1, 0x28), (.GPIFTCB0, 0),
           (.GPIFTRIG, if devA.altiface = 0 then 6 else 4), (.PC0, 1), (.PC1, 0)] :=
  vendor_scenario (envP 2) (envP 5) (envP 10) (envP 24) (envP 1) devA rfl rfl rfl rfl rfl
    ⟨3, by decide⟩ ⟨3, by decide⟩ ⟨3, by decide⟩ ⟨3, by decide⟩ ⟨3, by decide⟩ ⟨1, by decide⟩

theorem init_eq (env : Env) (s : Dev) :
    init env s = .ret () (select_interface env 0
      (set_numchannels 2 (load_program ⟨1, 24, 23, 2, 0, 0x40, 0xca⟩ (init_head s))).2) := by
  have hs : set_samplerate 1 (init_head s) =
      .ret true (load_program ⟨1, 24, 23, 2, 0, 0x40, 0xca⟩ (init_head s)) := by
    rw [set_samplerate_eq]
    rfl
  unfold init
  simp only []
  show (match set_samplerate 1 (init_head s) with
    | .stuck s => Run.stuck s
    | .ret _ s => Run.ret () (select_interface env 0 (set_numchannels 2 s).2)) = _
  rw [hs]

theorem init_head_ioc (s : Dev) :
    (init_head s).regs .IOC =
      ioc_rmw 1 (0x24 * 2) (ioc_rmw 0 (0x24 * 2) (s.regs .IOC % 256)) := by
  unfold init_head
  simp only []
  rw [set_voltage_eq_of_valid 1 1 _ (Or.inl rfl), set_voltage_eq_of_valid 0 1 _ (Or.inl rfl)]
  simp only [write_regs, Function.update_same, Nat.mod_eq_of_lt (ioc_rmw_byte _ _ _)]
  rw [ioc_rmw_mod 0 _ _]
  simp [stop_sampling, Function.update_apply, spec_selector]

theorem init_head_log (s : Dev) :
    ∃ rest, (init_head s).log = s.log ++ rest ∧ ∀ w ∈ rest, w.1 ≠ Reg.GPIFTRIG := by
  unfold init_head
  simp only []
  rw [set_voltage_eq_of_valid 1 1 _ (Or.inl rfl), set_voltage_eq_of_valid 0 1 _ (Or.inl rfl)]
  refine ⟨_, by simp only [write_log, stop_sampling_log, List.append_assoc]; rfl, ?_⟩
  intro w hw
  simp only [List.singleton_append, List.cons_append, List.nil_append, List.mem_cons,
    List.mem_singleton, List.not_mem_nil, or_false] at hw
  rcases hw with h | h | h | h | h | h | h | h | h | h <;> subst h <;> simp

theorem select_interface_zero_log (env : Env) (s : Dev) :
    ∃ rest, (select_interface env 0 s).log = s.log ++ rest ∧
      ∀ w ∈ rest, w.1 ≠ Reg.GPIFTRIG := by
  refine ⟨_, by simp only [select_interface, if_true, write_log, set_altiface_log,
    List.append_assoc]; rfl, ?_⟩
  intro w hw
  simp only [List.singleton_append, List.cons_append, List.nil_append, List.mem_cons,
    List.mem_singleton, List.not_mem_nil, or_false] at hw
  rcases hw with h | h | h | h | h <;> subst h <;> simp

theorem select_interface_zero_regs (env : Env) (s : Dev) (r : Reg) (h1 : r ≠ .EP2CFG)
    (h2 : r ≠ .EP6CFG) (h3 : r ≠ .EP6GPIFFLGSEL) (h4 : r ≠ .EP6AUTOINLENL)
    (h5 : r ≠ .EP6AUTOINLENH) : (select_interface env 0 s).regs r = s.regs r := by
  simp [select_interface, Function.update_apply, h1, h2, h3, h4, h5]

theorem set_numchannels_regs (n : Nat) (s : Dev) (r : Reg) (h1 : r ≠ .EP2FIFOCFG)
    (h2 : r ≠ .EP6FIFOCFG) : (set_numchannels n s).2.regs r = s.regs r := by
  unfold set_numchannels
  split_ifs
  · simp [Function.update_apply, h1, h2]
  · rfl

/-- C20: the four defaults of `init` are accepted from any state, and
`init` returns with bits 2-7 of `IOC` equal to 0x48, `IFCONFIG = 0xCA`,
`EP2FIFOCFG = EP6FIFOCFG = 9`, alt setting 0, `EP2CFG = 0x00`,
`EP6CFG = 0xE0`, and without any write to `GPIFTRIG`. -/
theorem init_defaults (env : Env) (s : Dev) :
    (∀ t, (set_voltage 0 1 t).1 = true ∧ (set_voltage 1 1 t).1 = true ∧
      (∃ t', set_samplerate 1 t = .ret true t') ∧ (set_numchannels 2 t).1 = true) ∧
    ∃ s', init env s = .ret () s' ∧
      s'.regs .IOC &&& 0xFC = 0x48 ∧
      s'.regs .IFCONFIG = 0xCA ∧
      s'.regs .EP2FIFOCFG = 9 ∧ s'.regs .EP6FIFOCFG = 9 ∧
      s'.altiface = 0 ∧ s'.regs .EP2CFG = 0x00 ∧ s'.regs .EP6CFG = 0xE0 ∧
      ∃ rest, s'.log = s.log ++ rest ∧ ∀ w ∈ rest, w.1 ≠ Reg.GPIFTRIG := by
  constructor
  · intro t
    refine ⟨by simp [set_voltage], by simp [set_voltage], ?_, by simp [set_numchannels]⟩
    obtain ⟨row, _, _, h⟩ := set_samplerate_ok 1 t (by decide)
    exact ⟨_, h⟩
  · refine ⟨_, init_eq env s, ?_, ?_, ?_, ?_, ?_, ?_, ?_, ?_⟩
    · rw [select_interface_zero_regs _ _ _ (by decide) (by decide) (by decide) (by decide)
          (by decide), set_numchannels_regs _ _ _ (by decide) (by decide),
        load_program_regs _ _ _ (by decide) (by decide) (by decide) (by decide) (by decide),
        init_head_ioc]
      exact (ioc_rmw_defaults _ (Nat.mod_lt _ (by decide))).2
    · rw [select_interface_zero_regs _ _ _ (by decide) (by decide) (by decide) (by decide)
          (by decide), set_numchannels_regs _ _ _ (by decide) (by decide),
        load_program_ifconfig]
      rfl
    · simp [select_interface, set_numchannels, Function.update_apply]
    · simp [select_interface, set_numchannels, Function.update_apply]
    · rw [select_interface_altiface]
    · exact ((select_interface_cfg env 0 _).1 rfl).1
    · exact ((select_interface_cfg env 0 _).1 rfl).2
    · obtain ⟨r1, l1, q1⟩ := init_head_log s
      obtain ⟨r2, l2, q2⟩ := load_program_quiet ⟨1, 24, 23, 2, 0, 0x40, 0xca⟩ (init_head s)
      obtain ⟨r3, l3, q3⟩ := select_interface_zero_log env
        (set_numchannels 2 (load_program ⟨1, 24, 23, 2, 0, 0x40, 0xca⟩ (init_head s))).2
      refine ⟨r1 ++ (r2 ++ ([(.EP2FIFOCFG, 9), (.EP6FIFOCFG, 9)] ++ r3)), ?_, ?_⟩
      · rw [l3]
        simp [set_numchannels, l2, l1]
      · intro w hw
        simp only [List.mem_append, List.mem_cons, List.mem_singleton, List.not_mem_nil,
          or_false] at hw
        rcases hw with h | h | (h | h) | h
        · exact q1 w h
        · exact (q2 w h).2.2.2
        · subst h; simp
        · subst h; simp
        · exact q3 w h

end Hantek
